import Mathlib

/-!
Verification of the ADH Rigging Tools add-on (rigging_tools.py), a set of
eleven operators that mutate a host 3D application's scene graph.  The add-on
is shallowly embedded: the scene graph (objects, bones, modifiers,
constraints, vertex groups) is a Lean data type, and every operator's
`execute` method is a function on that state.  Host-library services that the
add-on merely calls (the regular-expression engine `re`, Rigify's
`obj_to_bone`, the lattice-modifier evaluator) are parameters collected in a
`HostEnv` record, since their code is not part of the repository.
-/

set_option maxHeartbeats 1000000

/-- Result value of an operator's `execute` method. -/
inductive OpResult where
  | FINISHED
  | CANCELLED
deriving DecidableEq, Repr

/-- A bone constraint (only the fields the add-on touches). -/
structure Constraint where
  ctype : String
  owner_space : String
  target_space : String
  target : Option String
  subtarget : String
deriving DecidableEq, Repr

/-- A bone of an armature.  Pose bones and edit bones are two views of the
same underlying bone, so a single record carries the edit-mode fields
(head, tail, roll, bbone, layers) together with the pose-mode fields
(custom shape, constraint stack). -/
structure Bone where
  name : String
  head : ℚ × ℚ × ℚ
  tail : ℚ × ℚ × ℚ
  roll : ℚ
  bbone_x : ℚ
  bbone_z : ℚ
  layers : List Bool
  selected : Bool
  custom_shape : Option String
  constraints : List Constraint
deriving DecidableEq, Repr

/-- A modifier on an object's modifier stack.  `mobject` is the modifier's
target object (used by ARMATURE modifiers). -/
structure Modifier where
  name : String
  mtype : String
  show_viewport : Bool
  show_expanded : Bool
  mobject : Option String
deriving DecidableEq, Repr

/-- A scene object.  `data_name` is the name of the object's data block
(`none` models an object without data);  `transform` abstracts the object's
placement, which Rigify's `obj_to_bone` overwrites. -/
structure Obj where
  name : String
  otype : String
  data_name : Option String
  modifiers : List Modifier
  vertex_groups : List String
  bones : List Bone
  selected : Bool
  show_wire : Bool
  shape_keys : List String
  active_shape_key_index : Nat
  layers : List Bool
  transform : Nat
  mesh_verts : List (ℚ × ℚ × ℚ)
  mesh_edges : List (Nat × Nat)
  mesh_faces : List (List Nat)
deriving DecidableEq, Repr

/-- The scene graph reachable from the operator context: the object list,
the active object and active pose bone (by name), the interaction mode, the
two scene-level regex properties the add-on registers, and the data-block
store of meshes. -/
structure Scene where
  objects : List Obj
  active_object : Option String
  active_bone : Option String
  mode : String
  adh_regex_search_pattern : String
  adh_regex_replacement_string : String
  data_meshes : List String
deriving DecidableEq, Repr

/-- Host UI state outside the scene graph: whether the current View3D area
has been tagged for redraw. -/
structure UIState where
  redraw_tagged : Bool
deriving DecidableEq, Repr

/-- The add-on's module-level data: `bl_info` entries and the operators'
property definitions (their defaults), none of which an operator run may
change. -/
structure ModuleData where
  addon_name : String
  addon_version : Nat × Nat × Nat
  show_viewport_default : Bool
  show_wire_default : Bool
  widget_size_default : ℚ
  widget_pos_default : ℚ
  widget_pfx_default : String
deriving DecidableEq, Repr

/-- The whole world an operator can observe: the scene graph plus the state
outside it. -/
structure Context where
  scene : Scene
  ui : UIState
  module : ModuleData
deriving DecidableEq, Repr

/-- Host-application services used but not defined by the add-on: the `re`
module (pattern validity and `re.sub`), Rigify's `obj_to_bone` placement
(abstracted as a transform code), and the host's lattice-modifier
evaluation. -/
structure HostEnv where
  re_valid : String → Bool
  re_sub : String → String → String → String
  bone_tf : String → String → Nat
  lattice_deform : String → List (ℚ × ℚ × ℚ) → List (ℚ × ℚ × ℚ)

/-- Update the first element satisfying `p` (models indexing into a
host collection by key, then mutating the found element). -/
def updateFirst {α : Type} (p : α → Bool) (f : α → α) : List α → List α
  | [] => []
  | a :: t => if p a then f a :: t else a :: updateFirst p f t

/-- `context.selected_objects`. -/
def selectedObjects (s : Scene) : List Obj :=
  s.objects.filter (fun o => o.selected)

/-- Look an object up by name (`scene.objects[name]`). -/
def lookupObj (s : Scene) (n : String) : Option Obj :=
  s.objects.find? (fun o => o.name == n)

/-- `context.active_object`. -/
def activeObj (s : Scene) : Option Obj :=
  s.active_object.bind (lookupObj s)

/-- `context.active_pose_bone`. -/
def activePoseBone (s : Scene) : Option Bone :=
  s.active_bone.bind (fun bn =>
    (activeObj s).bind (fun o => o.bones.find? (fun b => b.name == bn)))

/-- `context.selected_pose_bones` / `context.selected_bones`: the selected
bones of the active armature. -/
def selectedBones (s : Scene) : List Bone :=
  ((activeObj s).map (fun o => o.bones.filter (fun b => b.selected))).getD []

/-- Mutate the (first) object with the given name in place. -/
def updateObjByName (s : Scene) (n : String) (f : Obj → Obj) : Scene :=
  { s with objects := updateFirst (fun o => o.name == n) f s.objects }

/-- `bpy.ops.object.mode_set(mode=m)`: for an armature active object,
requesting EDIT mode puts the context in EDIT_ARMATURE mode (for a mesh, in
EDIT_MESH mode). -/
def modeSet (m : String) (s : Scene) : Scene :=
  { s with mode :=
      if m == "EDIT" then
        match activeObj s with
        | some o => if o.otype == "ARMATURE" then "EDIT_ARMATURE"
                    else if o.otype == "MESH" then "EDIT_MESH" else m
        | none => m
      else m }

/-- Lift a scene-level execute to the full context: operators reach the
scene through the context and write nothing else. -/
def liftScene (f : Scene → Option (Scene × OpResult)) (c : Context) :
    Option (Context × OpResult) :=
  (f c.scene).map (fun x => ({ c with scene := x.1 }, x.2))

/-- Same, for operators that cannot raise. -/
def liftSceneT (f : Scene → Scene × OpResult) (c : Context) :
    Context × OpResult :=
  let x := f c.scene
  ({ c with scene := x.1 }, x.2)

/-! ## Operator: Add Subdivision Surface Modifier (lines 30-61) -/

namespace ADH_AddSubdivisionSurfaceModifier

def bl_idname : String := "object.adh_add_subsurf_modifier"

/-- Body of the per-object loop of `execute`: if the object has no SUBSURF
modifier, append a fresh one (host defaults, then the two fields the code
sets); otherwise update every SUBSURF modifier in place. -/
def applyToObj (show_viewport : Bool) (obj : Obj) : Obj :=
  let sml := obj.modifiers.filter (fun m => m.mtype == "SUBSURF")
  if sml.isEmpty then
    let sm : Modifier :=
      { name := "Subsurf", mtype := "SUBSURF",
        show_viewport := true, show_expanded := true, mobject := none }
    let sm := { sm with show_viewport := show_viewport, show_expanded := false }
    { obj with modifiers := obj.modifiers ++ [sm] }
  else
    { obj with modifiers := obj.modifiers.map (fun m =>
        if m.mtype == "SUBSURF" then
          { m with show_viewport := show_viewport, show_expanded := false }
        else m) }

def sceneExecute (show_viewport : Bool) (s : Scene) : Scene × OpResult :=
  ({ s with objects := s.objects.map (fun o =>
      if o.selected && (o.otype == "MESH") then applyToObj show_viewport o
      else o) },
   OpResult.FINISHED)

def execute (show_viewport : Bool) : Context → Context × OpResult :=
  liftSceneT (sceneExecute show_viewport)

end ADH_AddSubdivisionSurfaceModifier

/-! ## Operator: Apply Lattices (lines 63-85) -/

namespace ADH_ApplyLattices

def bl_idname : String := "object.adh_apply_lattices"

/-- The shape-key loop: `for i in range(len(key_blocks), 0, -1)` sets the
active shape-key index to `i - 1` and removes that key. -/
def shapeKeyLoop : Nat → Obj → Obj
  | 0, obj => obj
  | k + 1, obj =>
      shapeKeyLoop k
        { obj with active_shape_key_index := k,
                   shape_keys := obj.shape_keys.eraseIdx k }

/-- The modifier loop: `for m in obj.modifiers` iterates the live
collection by an internal index while `modifier_apply` removes applied
modifiers from it, so the index advances past the element that slid into
the removed slot.  `fuel` only bounds the recursion; `obj.modifiers.length`
steps always suffice because the index grows by one per step. -/
def modLoop (env : HostEnv) : Nat → Nat → Obj → Obj
  | 0, _, obj => obj
  | fuel + 1, i, obj =>
    if h : i < obj.modifiers.length then
      let m := obj.modifiers.get ⟨i, h⟩
      if m.mtype == "LATTICE" then
        modLoop env fuel (i + 1)
          { obj with mesh_verts := env.lattice_deform m.name obj.mesh_verts,
                     modifiers := obj.modifiers.eraseIdx i }
      else
        modLoop env fuel (i + 1) obj
    else obj

def sceneExecute (env : HostEnv) (s : Scene) : Option (Scene × OpResult) :=
  match activeObj s with
  | none => none
  | some obj =>
    let step := fun (o : Obj) =>
      let o := if o.shape_keys.isEmpty then o else shapeKeyLoop o.shape_keys.length o
      modLoop env o.modifiers.length 0 o
    some (updateObjByName s obj.name step, OpResult.FINISHED)

def execute (env : HostEnv) : Context → Option (Context × OpResult) :=
  liftScene (sceneExecute env)

end ADH_ApplyLattices

/-! ## Operator: Copy Custom Shapes (lines 87-112) -/

namespace ADH_CopyCustomShapes

def bl_idname : String := "object.adh_copy_shapes"

/-- `try: armature.pose.bones[bone.name].custom_shape = cs except: pass`:
a non-armature object (no `pose`) and a missing bone name both raise, and
the exception is swallowed, leaving the object untouched. -/
def setBoneShape (bname : String) (cs : Option String) (o : Obj) : Obj :=
  if o.otype == "ARMATURE" && o.bones.any (fun b => b.name == bname) then
    { o with bones := (updateFirst (fun b => b.name == bname)
        (fun b => { b with custom_shape := cs }) o.bones) }
  else o

def sceneExecute (s : Scene) : Option (Scene × OpResult) :=
  match activeObj s with
  | none => none
  | some src =>
    -- dst_armatures = context.selected_objects; dst_armatures.remove(src):
    -- list.remove raises ValueError when src is not selected.
    if src.selected then
      let dstNames := ((selectedObjects s).filter (fun o => o.name != src.name)).map
        (fun o => o.name)
      let s' := src.bones.foldl (fun acc b =>
        dstNames.foldl (fun acc an =>
          updateObjByName acc an (setBoneShape b.name b.custom_shape)) acc) s
      some (s', OpResult.FINISHED)
    else none

def execute : Context → Option (Context × OpResult) :=
  liftScene sceneExecute

end ADH_CopyCustomShapes

/-! ## Operator: Create Custom Shape (lines 114-257): widget data tables.
The vertex tables are transcribed literally from the source; only `size`
and `pos` occur in them, so the data is independent of bone and rig. -/

def sphere_widget_verts (size pos : ℚ) : List (ℚ × ℚ × ℚ) :=
  [ (-0.3535533845424652*size, (-0.3535533845424652*size)+pos, 2.9802322387695312e-08*size),
    (-0.5*size, (2.1855694143368964e-08*size)+pos, -1.7763568394002505e-15*size),
    (-0.3535533845424652*size, (0.3535533845424652*size)+pos, -2.9802322387695312e-08*size),
    (4.371138828673793e-08*size, (0.5*size)+pos, -2.9802322387695312e-08*size),
    (-0.24999994039535522*size, (-0.3535533845424652*size)+pos, 0.2500000596046448*size),
    (-0.3535533845424652*size, (5.960464477539063e-08*size)+pos, 0.35355344414711*size),
    (-0.24999994039535522*size, (0.3535534143447876*size)+pos, 0.2500000298023224*size),
    (7.968597515173315e-08*size, (-0.3535534143447876*size)+pos, 0.35355344414711*size),
    (8.585823962903305e-08*size, (5.960464477539063e-08*size)+pos, 0.5000001192092896*size),
    (7.968597515173315e-08*size, (0.3535534143447876*size)+pos, 0.3535533845424652*size),
    (0.25000008940696716*size, (-0.3535533547401428*size)+pos, 0.25*size),
    (0.35355350375175476*size, (5.960464477539063e-08*size)+pos, 0.3535533845424652*size),
    (0.25000008940696716*size, (0.3535534143447876*size)+pos, 0.2499999701976776*size),
    (0.3535534739494324*size, (-0.3535534143447876*size)+pos, -2.9802322387695312e-08*size),
    (0.5000001192092896*size, (2.9802315282267955e-08*size)+pos, -8.429370268459024e-08*size),
    (0.3535534739494324*size, (0.3535533845424652*size)+pos, -8.940696716308594e-08*size),
    (0.2500000298023224*size, (-0.35355344414711*size)+pos, -0.2500000596046448*size),
    (0.3535533845424652*size, (0.0*size)+pos, -0.35355350375175476*size),
    (0.2500000298023224*size, (0.35355332493782043*size)+pos, -0.25000011920928955*size),
    (-4.494675920341251e-08*size, (-0.35355344414711*size)+pos, -0.3535534143447876*size),
    (-8.27291728455748e-08*size, (0.0*size)+pos, -0.5*size),
    (-4.494675920341251e-08*size, (0.3535533845424652*size)+pos, -0.3535534739494324*size),
    (1.2802747306750462e-08*size, (-0.5*size)+pos, 0.0*size),
    (-0.25000008940696716*size, (-0.35355344414711*size)+pos, -0.24999994039535522*size),
    (-0.35355350375175476*size, (0.0*size)+pos, -0.35355332493782043*size),
    (-0.25000008940696716*size, (0.35355332493782043*size)+pos, -0.25*size) ]

def sphere_widget_edges : List (Nat × Nat) :=
  [(0, 1), (1, 2), (2, 3), (4, 5), (5, 6), (2, 6), (0, 4), (5, 1), (7, 8), (8, 9), (6, 9), (5, 8),
    (7, 4), (10, 11), (11, 12), (9, 12), (10, 7), (11, 8), (13, 14), (14, 15), (12, 15), (13, 10),
    (14, 11), (16, 17), (17, 18), (15, 18), (16, 13), (17, 14), (19, 20), (20, 21), (18, 21), (16,
    19), (20, 17), (22, 23), (23, 24), (24, 25), (21, 25), (20, 24), (23, 19), (22, 0), (22, 4),
    (6, 3), (22, 7), (9, 3), (22, 10), (12, 3), (22, 13), (15, 3), (22, 16), (18, 3), (22, 19),
    (21, 3), (25, 3), (25, 2), (0, 23), (1, 24)]

def sphere_widget_faces : List (List Nat) :=
  [[1, 0, 4, 5], [2, 1, 5, 6], [6, 5, 8, 9], [5, 4, 7, 8], [8, 7, 10, 11], [9, 8, 11, 12], [11,
    10, 13, 14], [12, 11, 14, 15], [14, 13, 16, 17], [15, 14, 17, 18], [17, 16, 19, 20], [18, 17,
    20, 21], [21, 20, 24, 25], [20, 19, 23, 24], [3, 2, 6], [0, 22, 4], [3, 6, 9], [4, 22, 7], [3,
    9, 12], [7, 22, 10], [3, 12, 15], [10, 22, 13], [3, 15, 18], [13, 22, 16], [3, 18, 21], [16,
    22, 19], [3, 21, 25], [19, 22, 23], [3, 25, 2], [23, 22, 0], [24, 23, 0, 1], [25, 24, 1, 2]]

def ring_widget_verts (size pos : ℚ) : List (ℚ × ℚ × ℚ) :=
  [ (0.0*size, pos, 1.0*size),
    (-0.5*size, pos, 0.8660253882408142*size),
    (-0.866025447845459*size, pos, 0.4999999701976776*size),
    (-1.0*size, pos, -4.371138828673793e-08*size),
    (-0.8660253882408142*size, pos, -0.5000000596046448*size),
    (-0.5000000596046448*size, pos, -0.8660253882408142*size),
    (-1.5099580252808664e-07*size, pos, -1.0*size),
    (0.4999997913837433*size, pos, -0.8660255074501038*size),
    (0.8660252094268799*size, pos, -0.5000002980232239*size),
    (1.0*size, pos, -4.649122899991198e-07*size),
    (0.8660256862640381*size, pos, 0.4999994933605194*size),
    (0.5000005960464478*size, pos, 0.8660250902175903*size) ]

def ring_widget_edges : List (Nat × Nat) :=
  [(1, 0), (2, 1), (3, 2), (4, 3), (5, 4), (6, 5), (7, 6), (8, 7), (9, 8), (10, 9), (11, 10), (0,
    11)]

def ring_widget_faces : List (List Nat) :=
  []

def box_widget_verts (size pos : ℚ) : List (ℚ × ℚ × ℚ) :=
  [ (-0.5*size, -0.5+pos, -0.5*size),
    (-0.5*size, 0.5+pos, -0.5*size),
    (0.5*size, 0.5+pos, -0.5*size),
    (0.5*size, -0.5+pos, -0.5*size),
    (-0.5*size, -0.5+pos, 0.5*size),
    (-0.5*size, 0.5+pos, 0.5*size),
    (0.5*size, 0.5+pos, 0.5*size),
    (0.5*size, -0.5+pos, 0.5*size) ]

def box_widget_edges : List (Nat × Nat) :=
  [(4, 5), (5, 1), (1, 0), (0, 4), (5, 6), (6, 2), (2, 1), (6, 7), (7, 3), (3, 2), (7, 4), (0, 3)]

def box_widget_faces : List (List Nat) :=
  [[4, 5, 1, 0], [5, 6, 2, 1], [6, 7, 3, 2], [7, 4, 0, 3], [0, 1, 2, 3], [7, 6, 5, 4]]

namespace ADH_CreateCustomShape

def bl_idname : String := "object.adh_create_shape"

/-- The `widget_shape` EnumProperty. -/
inductive WidgetShape where
  | sphere
  | ring
  | box
deriving DecidableEq, Repr

/-- The operator's properties.  `widget_pfx` models the source's widget
name-prefix StringProperty. -/
structure Props where
  widget_shape : WidgetShape
  widget_size : ℚ
  widget_pos : ℚ
  widget_pfx : String
  widget_layers : List Bool
deriving DecidableEq, Repr

/-- `create_widget` (lines 180-196): if an object with the widget's name
already exists in the scene, return None and create nothing; otherwise
create a mesh data block and an object sharing the widget name, link the
object to the scene, place it at the bone via Rigify's `obj_to_bone`, and
set its layers. -/
def create_widget (props : Props) (env : HostEnv) (rig_name bone_name : String)
    (s : Scene) : Scene × Option String :=
  let obj_name := props.widget_pfx ++ bone_name
  if s.objects.any (fun o => o.name == obj_name) then (s, none)
  else
    let obj : Obj :=
      { name := obj_name, otype := "MESH", data_name := some obj_name,
        modifiers := [], vertex_groups := [], bones := [], selected := false,
        show_wire := false, shape_keys := [], active_shape_key_index := 0,
        layers := props.widget_layers,
        transform := env.bone_tf rig_name bone_name,
        mesh_verts := [], mesh_edges := [], mesh_faces := [] }
    ({ s with objects := s.objects ++ [obj],
              data_meshes := s.data_meshes ++ [obj_name] },
     some obj_name)

/-- `mesh.from_pydata(verts, edges, faces)` on the widget's mesh. -/
def fillMesh (verts : List (ℚ × ℚ × ℚ)) (edges : List (Nat × Nat))
    (faces : List (List Nat)) (objName : String) (s : Scene) : Scene :=
  updateObjByName s objName (fun o =>
    { o with mesh_verts := verts, mesh_edges := edges, mesh_faces := faces })

def create_sphere_widget (props : Props) (env : HostEnv)
    (rig_name bone_name : String) (size pos : ℚ) (s : Scene) :
    Scene × Option String :=
  match create_widget props env rig_name bone_name s with
  | (s', none) => (s', none)
  | (s', some n) =>
    (fillMesh (sphere_widget_verts size pos) sphere_widget_edges
      sphere_widget_faces n s', some n)

def create_ring_widget (props : Props) (env : HostEnv)
    (rig_name bone_name : String) (size pos : ℚ) (s : Scene) :
    Scene × Option String :=
  match create_widget props env rig_name bone_name s with
  | (s', none) => (s', none)
  | (s', some n) =>
    (fillMesh (ring_widget_verts size pos) ring_widget_edges
      ring_widget_faces n s', some n)

def create_box_widget (props : Props) (env : HostEnv)
    (rig_name bone_name : String) (size pos : ℚ) (s : Scene) :
    Scene × Option String :=
  match create_widget props env rig_name bone_name s with
  | (s', none) => (s', none)
  | (s', some n) =>
    (fillMesh (box_widget_verts size pos) box_widget_edges
      box_widget_faces n s', some n)

/-- `execute` (lines 250-257): dispatch on the shape enum (the source uses
`getattr`), build the widget at the active bone, and assign it (or None) as
the active pose bone's custom shape. -/
def sceneExecute (props : Props) (env : HostEnv) (s : Scene) :
    Option (Scene × OpResult) :=
  match activeObj s, activePoseBone s with
  | some rig, some bone =>
    let func := match props.widget_shape with
      | WidgetShape.sphere => create_sphere_widget
      | WidgetShape.ring => create_ring_widget
      | WidgetShape.box => create_box_widget
    let r := func props env rig.name bone.name props.widget_size props.widget_pos s
    some (updateObjByName r.1 rig.name (fun a =>
      { a with bones := (updateFirst (fun b => b.name == bone.name)
          (fun b => { b with custom_shape := r.2 }) a.bones) }),
      OpResult.FINISHED)
  | _, _ => none

def execute (props : Props) (env : HostEnv) : Context → Option (Context × OpResult) :=
  liftScene (sceneExecute props env)

end ADH_CreateCustomShape

/-! ## Operator: Create Hook Bones (lines 260-300) -/

namespace ADH_CreateHookBones

def bl_idname : String := "object.adh_create_hook_bones"

/-- The edit bone created for `b` in the first loop of `execute`:
`edit_bones.new` gives a fresh unselected bone with no constraints, then
head, tail, halved bbone sizes, the operator's hook layers and the roll are
copied over. -/
def hookBoneOf (hook_layers : List Bool) (b : Bone) : Bone :=
  { name := "hook-" ++ b.name, head := b.head, tail := b.tail,
    roll := b.roll, bbone_x := b.bbone_x / 2, bbone_z := b.bbone_z / 2,
    layers := hook_layers, selected := false, custom_shape := none,
    constraints := [] }

/-- The COPY_TRANSFORMS constraint configured in the second loop. -/
def ctConstraint (armName boneName : String) : Constraint :=
  { ctype := "COPY_TRANSFORMS", owner_space := "LOCAL",
    target_space := "LOCAL", target := some armName, subtarget := boneName }

/-- One step of the second loop: index the active object's pose bones by
the hook's name (KeyError aborts the operator) and append the constraint. -/
def addHookConstraint (s : Scene) (b : Bone) : Option Scene :=
  match activeObj s with
  | none => none
  | some arm =>
    let hookName := "hook-" ++ b.name
    if arm.bones.any (fun hb => hb.name == hookName) then
      some (updateObjByName s arm.name (fun a =>
        { a with bones := (updateFirst (fun hb => hb.name == hookName)
            (fun hb => { hb with constraints :=
                hb.constraints ++ [ctConstraint arm.name b.name] }) a.bones) }))
    else none

def sceneExecute (hook_layers : List Bool) (s : Scene) :
    Option (Scene × OpResult) :=
  let prev := if s.mode == "EDIT_ARMATURE" then "EDIT" else s.mode
  let s := modeSet "EDIT" s
  match activeObj s with
  | none => none
  | some arm =>
    let sel := arm.bones.filter (fun b => b.selected)
    let s := updateObjByName s arm.name (fun a =>
      { a with bones := (sel.foldl (fun bs b => bs ++ [hookBoneOf hook_layers b]) a.bones) })
    let s := modeSet "POSE" s
    match (selectedBones s).foldlM addHookConstraint s with
    | none => none
    | some s => some (modeSet prev s, OpResult.FINISHED)

def execute (hook_layers : List Bool) : Context → Option (Context × OpResult) :=
  liftScene (sceneExecute hook_layers)

end ADH_CreateHookBones

/-! ## Operator: Display Wire For Skinned Objects (lines 302-333) -/

namespace ADH_DisplayWireForSkinnedObjects

def bl_idname : String := "object.adh_display_wire_if_skinned"

/-- `execute` collects the selectable objects having an ARMATURE modifier
targeting the active object, then sets their `show_wire`; collecting and
setting in two passes equals setting in one pass because `show_wire` does
not feed the predicate. -/
def sceneExecute (show_wire : Bool) (s : Scene) : Scene × OpResult :=
  let armTgt : Option String := (activeObj s).map (fun o => o.name)
  ({ s with objects := s.objects.map (fun o =>
      if o.modifiers.any (fun m => m.mtype == "ARMATURE" && m.mobject == armTgt)
      then { o with show_wire := show_wire } else o) },
   OpResult.FINISHED)

def execute (show_wire : Bool) : Context → Context × OpResult :=
  liftSceneT (sceneExecute show_wire)

end ADH_DisplayWireForSkinnedObjects

/-! ## Operator: Remove Vertex Groups of Unselected Bones (lines 335-357) -/

namespace ADH_RemoveVertexGroupsUnselectedBones

def bl_idname : String := "object.adh_remove_vertex_groups_unselected_bones"

/-- `for vg in obj.vertex_groups: if not vg.name in bone_names:
obj.vertex_groups.remove(vg)`.  The host collection is iterated live by an
internal index that advances every step, while `remove` shifts the later
groups down one slot, so the group following a removed one is skipped.
`fuel` only bounds the recursion; the index grows by one per step, so
`groups.length` steps always suffice. -/
def removeVGIter (bone_names : List String) : Nat → Nat → List String → List String
  | 0, _, gs => gs
  | fuel + 1, i, gs =>
    if h : i < gs.length then
      let g := gs.get ⟨i, h⟩
      if bone_names.contains g then removeVGIter bone_names fuel (i + 1) gs
      else removeVGIter bone_names fuel (i + 1) (gs.eraseIdx i)
    else gs

def sceneExecute (s : Scene) : Scene × OpResult :=
  let bone_names := (selectedBones s).map (fun b => b.name)
  ({ s with objects := s.objects.map (fun o =>
      if o.selected && (o.otype == "MESH") then
        { o with vertex_groups :=
            removeVGIter bone_names o.vertex_groups.length 0 o.vertex_groups }
      else o) },
   OpResult.FINISHED)

def execute : Context → Context × OpResult :=
  liftSceneT sceneExecute

end ADH_RemoveVertexGroupsUnselectedBones

/-! ## Operator: Rename Regex (lines 359-390) -/

namespace ADH_RenameRegex

def bl_idname : String := "object.adh_rename_regex"

/-- `execute`: compile the scene's search pattern (an invalid pattern
raises), then substitute on the names of the mode's item list.  Selected
objects in OBJECT mode, selected pose bones in POSE mode, selected edit
bones in EDIT_ARMATURE mode; any other mode returns CANCELLED. -/
def sceneExecute (env : HostEnv) (s : Scene) : Option (Scene × OpResult) :=
  if env.re_valid s.adh_regex_search_pattern then
    let sub := fun n =>
      env.re_sub s.adh_regex_search_pattern s.adh_regex_replacement_string n
    if s.mode == "OBJECT" then
      some ({ s with objects := s.objects.map (fun o =>
          if o.selected then { o with name := sub o.name } else o) },
        OpResult.FINISHED)
    else if s.mode == "POSE" || s.mode == "EDIT_ARMATURE" then
      let s' := match activeObj s with
        | none => s
        | some a => updateObjByName s a.name (fun a =>
            { a with bones := (a.bones.map (fun b =>
                if b.selected then { b with name := sub b.name } else b)) })
      some (s', OpResult.FINISHED)
    else
      some (s, OpResult.CANCELLED)
  else none

/-- The full execute also calls `context.area.tag_redraw()` when the mode
is POSE (lines 387-388), which touches UI state outside the scene. -/
def execute (env : HostEnv) (c : Context) : Option (Context × OpResult) :=
  match sceneExecute env c.scene with
  | none => none
  | some x =>
    let ui := if c.scene.mode == "POSE" then { c.ui with redraw_tagged := true }
              else c.ui
    some ({ c with scene := x.1, ui := ui }, x.2)

end ADH_RenameRegex

/-! ## Operator: Sync Object Data Name To Object (lines 392-407) -/

namespace ADH_SyncObjectDataNameToObject

def bl_idname : String := "object.adh_sync_data_name_to_object"

def sceneExecute (s : Scene) : Scene × OpResult :=
  ({ s with objects := s.objects.map (fun o =>
      if o.selected && o.data_name.isSome then { o with data_name := some o.name }
      else o) },
   OpResult.FINISHED)

def execute : Context → Context × OpResult :=
  liftSceneT sceneExecute

end ADH_SyncObjectDataNameToObject

/-! ## Operator: Sync Custom Shape Position to Bone (lines 409-427) -/

namespace ADH_SyncCustomShapePositionToBone

def bl_idname : String := "object.adh_sync_shape_position_to_bone"

/-- For each selected pose bone with a custom shape, re-place the shape
object at the bone via Rigify's `obj_to_bone`. -/
def sceneExecute (env : HostEnv) (s : Scene) : Scene × OpResult :=
  let rigName := s.active_object.getD ""
  let s' := (selectedBones s).foldl (fun acc b =>
    match b.custom_shape with
    | none => acc
    | some objName => updateObjByName acc objName (fun o =>
        { o with transform := env.bone_tf rigName b.name })) s
  (s', OpResult.FINISHED)

def execute (env : HostEnv) : Context → Context × OpResult :=
  liftSceneT (sceneExecute env)

end ADH_SyncCustomShapePositionToBone

/-! ## Operator: Use Same Custom Shape (lines 429-452) -/

namespace ADH_UseSameCustomShape

def bl_idname : String := "object.adh_use_same_shape"

/-- `execute`: start from the active pose bone's custom shape, override it
with the first selected MESH object if one exists, then assign the result
to every selected pose bone. -/
def sceneExecute (s : Scene) : Option (Scene × OpResult) :=
  match activePoseBone s with
  | none => some (s, OpResult.CANCELLED)
  | some ab =>
    let cs := match (selectedObjects s).find? (fun o => o.otype == "MESH") with
      | some o => some o.name
      | none => ab.custom_shape
    match activeObj s with
    | none => some (s, OpResult.FINISHED)
    | some a =>
      some (updateObjByName s a.name (fun a =>
        { a with bones := (a.bones.map (fun b =>
            if b.selected then { b with custom_shape := cs } else b)) }),
        OpResult.FINISHED)

def execute : Context → Option (Context × OpResult) :=
  liftScene sceneExecute

end ADH_UseSameCustomShape

/-! ## Panel (lines 454-488) -/

namespace ADH_RiggingToolsPanel

/-- The operator buttons laid out by `draw`, in source order. -/
def draw_operator_calls : List String :=
  ["object.adh_rename_regex",
   "object.adh_add_subsurf_modifier",
   "object.adh_apply_lattices",
   "object.adh_copy_shapes",
   "object.adh_use_same_shape",
   "object.adh_create_shape",
   "object.adh_create_hook_bones",
   "object.adh_display_wire_if_skinned",
   "object.adh_remove_vertex_groups_unselected_bones",
   "object.adh_sync_data_name_to_object",
   "object.adh_sync_shape_position_to_bone"]

end ADH_RiggingToolsPanel

/-- The `bl_idname`s of the eleven operator classes defined in the module,
in definition order. -/
def operator_bl_idnames : List String :=
  [ADH_AddSubdivisionSurfaceModifier.bl_idname,
   ADH_ApplyLattices.bl_idname,
   ADH_CopyCustomShapes.bl_idname,
   ADH_CreateCustomShape.bl_idname,
   ADH_CreateHookBones.bl_idname,
   ADH_DisplayWireForSkinnedObjects.bl_idname,
   ADH_RemoveVertexGroupsUnselectedBones.bl_idname,
   ADH_RenameRegex.bl_idname,
   ADH_SyncObjectDataNameToObject.bl_idname,
   ADH_SyncCustomShapePositionToBone.bl_idname,
   ADH_UseSameCustomShape.bl_idname]

/-! ## Base coefficient tables used to state the size/pos decomposition of
the widget vertex tables. -/

def sphere_widget_base : List (ℚ × ℚ × ℚ) :=
  [ ((-0.3535533845424652), (-0.3535533845424652), 2.9802322387695312e-08),
    ((-0.5), 2.1855694143368964e-08, (-1.7763568394002505e-15)),
    ((-0.3535533845424652), 0.3535533845424652, (-2.9802322387695312e-08)),
    (4.371138828673793e-08, 0.5, (-2.9802322387695312e-08)),
    ((-0.24999994039535522), (-0.3535533845424652), 0.2500000596046448),
    ((-0.3535533845424652), 5.960464477539063e-08, 0.35355344414711),
    ((-0.24999994039535522), 0.3535534143447876, 0.2500000298023224),
    (7.968597515173315e-08, (-0.3535534143447876), 0.35355344414711),
    (8.585823962903305e-08, 5.960464477539063e-08, 0.5000001192092896),
    (7.968597515173315e-08, 0.3535534143447876, 0.3535533845424652),
    (0.25000008940696716, (-0.3535533547401428), 0.25),
    (0.35355350375175476, 5.960464477539063e-08, 0.3535533845424652),
    (0.25000008940696716, 0.3535534143447876, 0.2499999701976776),
    (0.3535534739494324, (-0.3535534143447876), (-2.9802322387695312e-08)),
    (0.5000001192092896, 2.9802315282267955e-08, (-8.429370268459024e-08)),
    (0.3535534739494324, 0.3535533845424652, (-8.940696716308594e-08)),
    (0.2500000298023224, (-0.35355344414711), (-0.2500000596046448)),
    (0.3535533845424652, 0.0, (-0.35355350375175476)),
    (0.2500000298023224, 0.35355332493782043, (-0.25000011920928955)),
    ((-4.494675920341251e-08), (-0.35355344414711), (-0.3535534143447876)),
    ((-8.27291728455748e-08), 0.0, (-0.5)),
    ((-4.494675920341251e-08), 0.3535533845424652, (-0.3535534739494324)),
    (1.2802747306750462e-08, (-0.5), 0.0),
    ((-0.25000008940696716), (-0.35355344414711), (-0.24999994039535522)),
    ((-0.35355350375175476), 0.0, (-0.35355332493782043)),
    ((-0.25000008940696716), 0.35355332493782043, (-0.25)) ]

def ring_widget_base : List (ℚ × ℚ × ℚ) :=
  [ (0.0, 0, 1.0),
    ((-0.5), 0, 0.8660253882408142),
    ((-0.866025447845459), 0, 0.4999999701976776),
    ((-1.0), 0, (-4.371138828673793e-08)),
    ((-0.8660253882408142), 0, (-0.5000000596046448)),
    ((-0.5000000596046448), 0, (-0.8660253882408142)),
    ((-1.5099580252808664e-07), 0, (-1.0)),
    (0.4999997913837433, 0, (-0.8660255074501038)),
    (0.8660252094268799, 0, (-0.5000002980232239)),
    (1.0, 0, (-4.649122899991198e-07)),
    (0.8660256862640381, 0, 0.4999994933605194),
    (0.5000005960464478, 0, 0.8660250902175903) ]

def box_widget_base : List (ℚ × ℚ × ℚ) :=
  [ ((-0.5), (-0.5), (-0.5)),
    ((-0.5), 0.5, (-0.5)),
    (0.5, 0.5, (-0.5)),
    (0.5, (-0.5), (-0.5)),
    ((-0.5), (-0.5), 0.5),
    ((-0.5), 0.5, 0.5),
    (0.5, 0.5, 0.5),
    (0.5, (-0.5), 0.5) ]

/-! ## Sample data shared by the concrete evaluations below. -/

def sampleModule : ModuleData :=
  { addon_name := "ADH Rigging Tools", addon_version := (1, 0, 0),
    show_viewport_default := false, show_wire_default := false,
    widget_size_default := 1, widget_pos_default := 1/2,
    widget_pfx_default := "wgt-" }

def sampleEnv : HostEnv :=
  { re_valid := fun _ => true,
    re_sub := fun _ repl n => n ++ repl,
    bone_tf := fun _ _ => 7,
    lattice_deform := fun _ v => v }

def sampleBone (n : String) (sel : Bool) : Bone :=
  { name := n, head := (0, 0, 0), tail := (0, 1, 0), roll := 0,
    bbone_x := 1, bbone_z := 1, layers := [], selected := sel,
    custom_shape := none, constraints := [] }

def sampleObj (n ty : String) (sel : Bool) (bones : List Bone) : Obj :=
  { name := n, otype := ty, data_name := some n, modifiers := [],
    vertex_groups := [], bones := bones, selected := sel, show_wire := false,
    shape_keys := [], active_shape_key_index := 0, layers := [],
    transform := 0, mesh_verts := [], mesh_edges := [], mesh_faces := [] }

def sampleScene (objs : List Obj) (activeO activeB : Option String)
    (mode : String) : Scene :=
  { objects := objs, active_object := activeO, active_bone := activeB,
    mode := mode, adh_regex_search_pattern := "", adh_regex_replacement_string := "",
    data_meshes := [] }

def sampleCtx (s : Scene) : Context :=
  { scene := s, ui := { redraw_tagged := false }, module := sampleModule }

/-! ## Model-level shorthands and sample data used by the claims -/

namespace ADH_AddSubdivisionSurfaceModifier

/-- The modifier appended in the add branch, after its two fields are set. -/
def newSubsurf (p : Bool) : Modifier :=
  { name := "Subsurf", mtype := "SUBSURF", show_viewport := p,
    show_expanded := false, mobject := none }

end ADH_AddSubdivisionSurfaceModifier

namespace ADH_CreateHookBones

/-- A hook bone after its COPY_TRANSFORMS constraint has been attached. -/
def hookDone (hl : List Bool) (tgt : String) (b : Bone) : Bone :=
  { hookBoneOf hl b with constraints := [ctConstraint tgt b.name] }

end ADH_CreateHookBones

def removeVG_ctx : Context :=
  sampleCtx (sampleScene
    [sampleObj "Arm" "ARMATURE" true [sampleBone "keep" true],
     { sampleObj "Mesh" "MESH" true [] with vertex_groups := ["a", "b"] }]
    (some "Arm") (some "keep") "POSE")

/-- Shorthand for the substitution the operator performs on one name. -/
def regexSub (env : HostEnv) (s : Scene) (n : String) : String :=
  env.re_sub s.adh_regex_search_pattern s.adh_regex_replacement_string n

/-- The bone-renaming pass applied to the active armature in POSE and
EDIT_ARMATURE modes. -/
def renameBonesOf (env : HostEnv) (s : Scene) (o : Obj) : Obj :=
  { o with bones := (o.bones.map (fun b =>
      if b.selected then { b with name := regexSub env s b.name } else b)) }

def renameRegex_ctx : Context :=
  sampleCtx (sampleScene [sampleObj "Cube" "MESH" true []] none none "OBJECT")

def addSubsurf_ctx : Context :=
  sampleCtx (sampleScene [sampleObj "Cube" "MESH" true []] (some "Cube") none
    "OBJECT")

def useSame_arm : Obj :=
  sampleObj "Arm" "ARMATURE" true [sampleBone "b1" true, sampleBone "b2" true]

def useSame_ctx : Context :=
  sampleCtx (sampleScene [useSame_arm, sampleObj "Widget" "MESH" true []]
    (some "Arm") (some "b1") "POSE")

/-- What Copy Custom Shapes is meant to do to one destination bone: give it
the custom shape of the same-named source bone, if any. -/
def applySrc (srcBones : List Bone) (x : Bone) : Bone :=
  match srcBones.find? (fun sb => sb.name == x.name) with
  | some sb => { x with custom_shape := sb.custom_shape }
  | none => x

def copyShapes_src : Obj :=
  sampleObj "Src" "ARMATURE" true
    [{ sampleBone "b1" true with custom_shape := some "W" }]

def copyShapes_ctx : Context :=
  sampleCtx (sampleScene
    [copyShapes_src, sampleObj "Dst" "ARMATURE" true [sampleBone "b1" false]]
    (some "Src") none "POSE")

def hookBones_arm : Obj := sampleObj "Arm" "ARMATURE" true [sampleBone "b1" true]

def hookBones_ctx : Context :=
  sampleCtx (sampleScene [hookBones_arm] (some "Arm") (some "b1") "POSE")

/-- The context after an operator run, unchanged when the run raised. -/
def afterCtx (r : Option (Context × OpResult)) (c : Context) : Context :=
  (r.map (fun x => x.1)).getD c

def frame_ctx : Context :=
  sampleCtx (sampleScene
    [sampleObj "Arm" "ARMATURE" true [sampleBone "b1" true]]
    (some "Arm") (some "b1") "POSE")

def ccs_props : ADH_CreateCustomShape.Props :=
  { widget_shape := ADH_CreateCustomShape.WidgetShape.sphere,
    widget_size := 1, widget_pos := 1/2, widget_pfx := "wgt-",
    widget_layers := [] }

def ccs_arm : Obj := sampleObj "Arm" "ARMATURE" true [sampleBone "b1" true]

def ccs_ctx : Context :=
  sampleCtx (sampleScene [ccs_arm, sampleObj "wgt-b1" "MESH" false []]
    (some "Arm") (some "b1") "POSE")

/-! ## Claim C8 -/

/-- Claim C8: every operator class defined in the module is invokable from
the tool panel: the panel's `draw` method references each of the eleven
operators' `bl_idname` exactly once. -/
theorem panel_coverage_spec :
    operator_bl_idnames.length = 11 ∧
    ∀ i ∈ operator_bl_idnames,
      ADH_RiggingToolsPanel.draw_operator_calls.count i = 1 := by
  decide

/-! ## Claim C2 -/


/-- Claim C2 (evaluation at the failing input): the selected pose bones are
named ["keep"], and the selected mesh carries vertex groups ["a", "b"],
neither matching a selected bone.  The claim requires both to be removed,
but the code removes "a" and then skips "b": `remove` shifts the collection
under the live index-based iterator.  The group "b" survives. -/
theorem removeVG_failing_eval :
    ((ADH_RemoveVertexGroupsUnselectedBones.execute removeVG_ctx).1.scene.objects.map
        (fun o => o.vertex_groups)) = [[], ["b"]] ∧
    (ADH_RemoveVertexGroupsUnselectedBones.execute removeVG_ctx).2 =
      OpResult.FINISHED := by
  decide

/-! ## Claim C6 -/

/-- Claim C6 (counterexample to the scaling clause): the box table's
vertices are not of the form `base * size` with the pos-axis coordinate
additionally offset by `pos`: the pos-axis coordinate of every box vertex is
`±0.5 + pos`, not scaled by `size` at all (instantiating any candidate base
table at `size = 1` and `size = 2` is contradictory). -/
theorem box_widget_scaling_cex :
    ¬ ∃ base : List (ℚ × ℚ × ℚ), ∀ size pos : ℚ,
      box_widget_verts size pos =
        base.map (fun v => (v.1 * size, v.2.1 * size + pos, v.2.2 * size)) := by
  rintro ⟨base, h⟩
  have h1 := h 1 0
  have h2 := h 2 0
  cases base with
  | nil => simp [box_widget_verts] at h1
  | cons v t =>
    have e1 := congrArg (fun l => l.head?) h1
    have e2 := congrArg (fun l => l.head?) h2
    simp only [box_widget_verts, List.map_cons, List.head?_cons,
      Option.some.injEq, Prod.mk.injEq] at e1 e2
    have y1 := e1.2.1
    have y2 := e2.2.1
    rw [mul_one] at y1
    norm_num at y1 y2
    rw [← y1] at y2
    norm_num at y2

/-- Claim C6 (amended): the widget tables are fixed literal data depending
only on the `size` and `pos` parameters: the sphere table has 26 vertices,
each coordinate a fixed coefficient scaled by `size` with the second (bone
axis) coordinate additionally offset by `pos`; the ring table has 12
vertices of the same form, 12 edges forming the single closed cycle
0-1-...-11-0 and no faces; the box table has 8 vertices, 12 edges and 6
quadrilateral faces, but its bone-axis coordinate is the fixed coefficient
offset by `pos` WITHOUT being scaled by `size` (x and z are scaled). -/
theorem widget_tables_spec :
    (∀ size pos : ℚ, (sphere_widget_verts size pos).length = 26) ∧
    (∀ size pos : ℚ, sphere_widget_verts size pos =
      sphere_widget_base.map (fun v => (v.1 * size, v.2.1 * size + pos, v.2.2 * size))) ∧
    (∀ size pos : ℚ, (ring_widget_verts size pos).length = 12) ∧
    (∀ size pos : ℚ, ring_widget_verts size pos =
      ring_widget_base.map (fun v => (v.1 * size, v.2.1 * size + pos, v.2.2 * size))) ∧
    ring_widget_edges = (List.range 12).map (fun i => ((i + 1) % 12, i)) ∧
    ring_widget_faces = [] ∧
    (∀ size pos : ℚ, (box_widget_verts size pos).length = 8) ∧
    (∀ size pos : ℚ, box_widget_verts size pos =
      box_widget_base.map (fun v => (v.1 * size, v.2.1 + pos, v.2.2 * size))) ∧
    box_widget_edges.length = 12 ∧
    (∀ e ∈ box_widget_edges, e.1 < 8 ∧ e.2 < 8) ∧
    box_widget_faces.length = 6 ∧
    (∀ f ∈ box_widget_faces, f.length = 4 ∧ ∀ i ∈ f, i < 8) := by
  refine ⟨fun _ _ => rfl, fun _ _ => rfl, fun _ _ => rfl, ?_, by decide, rfl,
    fun _ _ => rfl, fun _ _ => rfl, by decide, by decide, by decide, by decide⟩
  intro size pos
  simp only [ring_widget_verts, ring_widget_base, List.map, zero_mul, zero_add]

/-! ## Claim C4 -/

namespace ADH_AddSubdivisionSurfaceModifier


lemma applyToObj_pos (p : Bool) (o : Obj)
    (h : (o.modifiers.filter (fun m => m.mtype == "SUBSURF")).isEmpty = true) :
    applyToObj p o = { o with modifiers := o.modifiers ++ [newSubsurf p] } := by
  simp only [applyToObj]
  rw [if_pos h]
  rfl

lemma applyToObj_neg (p : Bool) (o : Obj)
    (h : (o.modifiers.filter (fun m => m.mtype == "SUBSURF")).isEmpty = false) :
    applyToObj p o = { o with modifiers := o.modifiers.map (fun m =>
      if m.mtype == "SUBSURF" then
        { m with show_viewport := p, show_expanded := false }
      else m) } := by
  simp only [applyToObj]
  rw [if_neg (by rw [h]; exact Bool.false_ne_true)]

lemma applyToObj_selected (p : Bool) (o : Obj) :
    (applyToObj p o).selected = o.selected := by
  cases h : (o.modifiers.filter (fun m => m.mtype == "SUBSURF")).isEmpty
  · rw [applyToObj_neg p o h]
  · rw [applyToObj_pos p o h]

lemma applyToObj_otype (p : Bool) (o : Obj) :
    (applyToObj p o).otype = o.otype := by
  cases h : (o.modifiers.filter (fun m => m.mtype == "SUBSURF")).isEmpty
  · rw [applyToObj_neg p o h]
  · rw [applyToObj_pos p o h]

lemma applyToObj_subsurf (p : Bool) (o : Obj) :
    (∃ m ∈ (applyToObj p o).modifiers, m.mtype = "SUBSURF") ∧
    (∀ m ∈ (applyToObj p o).modifiers, m.mtype = "SUBSURF" →
      m.show_viewport = p ∧ m.show_expanded = false) := by
  cases hE : (o.modifiers.filter (fun m => m.mtype == "SUBSURF")).isEmpty
  · rw [applyToObj_neg p o hE]
    constructor
    · rcases List.isEmpty_eq_false_iff_exists_mem.mp hE with ⟨m, hm⟩
      have hm' := List.mem_filter.mp hm
      refine ⟨_, List.mem_map_of_mem _ hm'.1, ?_⟩
      rw [if_pos hm'.2]
      exact beq_iff_eq.mp hm'.2
    · intro m hm hty
      rcases List.mem_map.mp hm with ⟨m0, _, rfl⟩
      by_cases h0 : (m0.mtype == "SUBSURF") = true
      · rw [if_pos h0]; exact ⟨rfl, rfl⟩
      · rw [if_neg h0] at hty ⊢
        exact absurd (beq_iff_eq.mpr hty) h0
  · rw [applyToObj_pos p o hE]
    have hnone : ∀ m ∈ o.modifiers, ¬(m.mtype == "SUBSURF") = true :=
      List.filter_eq_nil_iff.mp (List.isEmpty_iff.mp hE)
    constructor
    · exact ⟨_, List.mem_append_right _ (List.mem_singleton.mpr rfl), rfl⟩
    · intro m hm hty
      rcases List.mem_append.mp hm with hm | hm
      · exact absurd hty (fun he => hnone m hm (beq_iff_eq.mpr he))
      · rw [List.mem_singleton.mp hm]; exact ⟨rfl, rfl⟩

lemma applyToObj_idem (p : Bool) (o : Obj) :
    applyToObj p (applyToObj p o) = applyToObj p o := by
  have hsub := applyToObj_subsurf p o
  have hne : ((applyToObj p o).modifiers.filter
      (fun m => m.mtype == "SUBSURF")).isEmpty = false := by
    rcases hsub.1 with ⟨m, hm, hty⟩
    have hmem : (m.mtype == "SUBSURF") = true := beq_iff_eq.mpr hty
    exact List.isEmpty_eq_false_iff_exists_mem.mpr
      ⟨m, List.mem_filter.mpr ⟨hm, hmem⟩⟩
  rw [applyToObj_neg p _ hne]
  have hmap : ((applyToObj p o).modifiers.map (fun m =>
      if m.mtype == "SUBSURF" then
        { m with show_viewport := p, show_expanded := false }
      else m)) = (applyToObj p o).modifiers := by
    refine (List.map_congr_left ?_).trans (List.map_id _)
    intro m hm
    by_cases h0 : (m.mtype == "SUBSURF") = true
    · rw [if_pos h0]
      rcases hsub.2 m hm (beq_iff_eq.mp h0) with ⟨h1, h2⟩
      cases m
      simp_all
    · rw [if_neg h0]; rfl
  rw [hmap]

end ADH_AddSubdivisionSurfaceModifier

/-- Claim C4: after the Add Subdivision Surface Modifier operator runs on a
non-empty object-mode selection, every selected mesh object has at least one
SUBSURF modifier, every SUBSURF modifier on it shows the operator's Show in
Viewport value and show_expanded false, and running the operator a second
time with the same property value is the identity on the result (no new
modifier, modifier stacks unchanged). -/
theorem addSubsurf_spec (p : Bool) (c : Context)
    (h1 : c.scene.mode = "OBJECT") (h2 : selectedObjects c.scene ≠ []) :
    ((ADH_AddSubdivisionSurfaceModifier.execute p c).2 = OpResult.FINISHED) ∧
    (∀ o ∈ (ADH_AddSubdivisionSurfaceModifier.execute p c).1.scene.objects,
      o.selected = true → o.otype = "MESH" →
        (∃ m ∈ o.modifiers, m.mtype = "SUBSURF") ∧
        (∀ m ∈ o.modifiers, m.mtype = "SUBSURF" →
          m.show_viewport = p ∧ m.show_expanded = false)) ∧
    ADH_AddSubdivisionSurfaceModifier.execute p
        (ADH_AddSubdivisionSurfaceModifier.execute p c).1 =
      ADH_AddSubdivisionSurfaceModifier.execute p c := by
  refine ⟨rfl, ?_, ?_⟩
  · intro o ho hsel hty
    simp only [ADH_AddSubdivisionSurfaceModifier.execute,
      ADH_AddSubdivisionSurfaceModifier.sceneExecute, liftSceneT,
      List.mem_map] at ho
    rcases ho with ⟨o0, _, rfl⟩
    by_cases hg : (o0.selected && (o0.otype == "MESH")) = true
    · rw [if_pos hg] at hsel hty ⊢
      exact ADH_AddSubdivisionSurfaceModifier.applyToObj_subsurf p o0
    · rw [if_neg hg] at hsel hty ⊢
      exact absurd (by rw [hsel, beq_iff_eq.mpr hty]; rfl) hg
  · have hobj : List.map
        (fun o => if (o.selected && (o.otype == "MESH")) = true then
          ADH_AddSubdivisionSurfaceModifier.applyToObj p o else o)
        (List.map
          (fun o => if (o.selected && (o.otype == "MESH")) = true then
            ADH_AddSubdivisionSurfaceModifier.applyToObj p o else o)
          c.scene.objects) =
        List.map
          (fun o => if (o.selected && (o.otype == "MESH")) = true then
            ADH_AddSubdivisionSurfaceModifier.applyToObj p o else o)
          c.scene.objects := by
      rw [List.map_map]
      apply List.map_congr_left
      intro o _
      simp only [Function.comp_apply]
      by_cases hg : (o.selected && (o.otype == "MESH")) = true
      · rw [if_pos hg, if_pos (by
          rw [ADH_AddSubdivisionSurfaceModifier.applyToObj_selected,
            ADH_AddSubdivisionSurfaceModifier.applyToObj_otype]
          exact hg)]
        exact ADH_AddSubdivisionSurfaceModifier.applyToObj_idem p o
      · rw [if_neg hg, if_neg hg]
    simp only [ADH_AddSubdivisionSurfaceModifier.execute,
      ADH_AddSubdivisionSurfaceModifier.sceneExecute, liftSceneT]
    rw [hobj]

/-! ## General lemmas about `updateFirst` -/

lemma find?_updateFirst {α : Type} (p : α → Bool) (f : α → α) (l : List α)
    (hf : ∀ a, p a = true → p (f a) = true) :
    (updateFirst p f l).find? p = (l.find? p).map f := by
  induction l with
  | nil => rfl
  | cons a t ih =>
    simp only [updateFirst]
    by_cases h : p a = true
    · rw [if_pos h, List.find?_cons_of_pos _ h, List.find?_cons_of_pos _ (hf a h),
        Option.map_some']
    · rw [if_neg h, List.find?_cons_of_neg _ (by simpa using h),
        List.find?_cons_of_neg _ (by simpa using h)]
      exact ih

lemma updateFirst_of_forall_neg {α : Type} (p : α → Bool) (f : α → α)
    (l : List α) (h : ∀ a ∈ l, p a = false) : updateFirst p f l = l := by
  induction l with
  | nil => rfl
  | cons a t ih =>
    simp only [updateFirst]
    rw [if_neg (by rw [h a (List.mem_cons_self a t)]; exact Bool.false_ne_true)]
    rw [ih (fun a ha => h a (List.mem_cons_of_mem _ ha))]

/-! ## Claim C1 -/


/-- Claim C1: when the Rename Regex operator runs with a compilable search
pattern, then in OBJECT mode every selected object's name becomes the
substitution of the scene's pattern by the scene's replacement string in its
old name, and likewise for every selected pose bone in POSE mode and every
selected edit bone in EDIT_ARMATURE mode; in all three modes the operator
returns FINISHED. -/
theorem renameRegex_spec (env : HostEnv) (c : Context)
    (hv : env.re_valid c.scene.adh_regex_search_pattern = true) :
    (c.scene.mode = "OBJECT" →
      ((ADH_RenameRegex.execute env c).map (fun x => x.2) =
        some OpResult.FINISHED) ∧
      ((ADH_RenameRegex.execute env c).map
          (fun x => x.1.scene.objects.map (fun o => o.name))) =
        some (c.scene.objects.map (fun o =>
          if o.selected then regexSub env c.scene o.name else o.name))) ∧
    (c.scene.mode = "POSE" →
      ((ADH_RenameRegex.execute env c).map (fun x => x.2) =
        some OpResult.FINISHED) ∧
      ∀ a, activeObj c.scene = some a →
        ((ADH_RenameRegex.execute env c).map (fun x =>
            (activeObj x.1.scene).map
              (fun a' => a'.bones.map (fun b => b.name)))) =
          some (some (a.bones.map (fun b =>
            if b.selected then regexSub env c.scene b.name else b.name)))) ∧
    (c.scene.mode = "EDIT_ARMATURE" →
      ((ADH_RenameRegex.execute env c).map (fun x => x.2) =
        some OpResult.FINISHED) ∧
      ∀ a, activeObj c.scene = some a →
        ((ADH_RenameRegex.execute env c).map (fun x =>
            (activeObj x.1.scene).map
              (fun a' => a'.bones.map (fun b => b.name)))) =
          some (some (a.bones.map (fun b =>
            if b.selected then regexSub env c.scene b.name else b.name)))) := by
  have hbones : ∀ a, activeObj c.scene = some a →
      (activeObj (updateObjByName c.scene a.name (renameBonesOf env c.scene))).map
          (fun a' => a'.bones.map (fun b => b.name)) =
      some (a.bones.map (fun b =>
        if b.selected then regexSub env c.scene b.name else b.name)) := by
    intro a ha
    rcases hn : c.scene.active_object with _ | n0
    · rw [activeObj, hn] at ha; exact absurd ha (by simp)
    · have hl : lookupObj c.scene n0 = some a := by
        rw [activeObj, hn] at ha; exact ha
      have hl' : c.scene.objects.find? (fun o => o.name == n0) = some a := hl
      have hname0 := List.find?_some hl'
      have hname : (a.name == n0) = true := by simpa using hname0
      have hfind : (updateFirst (fun o => o.name == a.name)
          (renameBonesOf env c.scene) c.scene.objects).find?
            (fun o => o.name == n0) =
          ((c.scene.objects.find? (fun o => o.name == n0)).map
            (renameBonesOf env c.scene)) := by
        rw [show (fun (o : Obj) => o.name == n0) =
            (fun (o : Obj) => o.name == a.name) by
          funext o; rw [beq_iff_eq.mp hname]]
        exact find?_updateFirst _ _ _ (fun o h => h)
      rw [activeObj, updateObjByName]
      simp only [hn, Option.bind_some, Option.some_bind, lookupObj]
      rw [hfind, hl']
      rw [Option.map_some', Option.map_some', Option.some.injEq]
      rw [renameBonesOf]
      simp only
      rw [List.map_map]
      apply List.map_congr_left
      intro b _
      by_cases hb : b.selected = true
      · simp only [Function.comp_apply]
        rw [if_pos hb, if_pos hb]
      · simp only [Function.comp_apply]
        rw [if_neg hb, if_neg hb]
  refine ⟨?_, ?_, ?_⟩
  · intro hm
    have hm' : (c.scene.mode == "OBJECT") = true := beq_iff_eq.mpr hm
    constructor
    · simp only [ADH_RenameRegex.execute, ADH_RenameRegex.sceneExecute,
        if_pos hv, if_pos hm', Option.map_some']
    · simp only [ADH_RenameRegex.execute, ADH_RenameRegex.sceneExecute,
        if_pos hv, if_pos hm', Option.map_some', Option.some.injEq]
      rw [List.map_map]
      apply List.map_congr_left
      intro o _
      by_cases ho : o.selected = true
      · simp only [Function.comp_apply]
        rw [if_pos ho, if_pos ho]
        rfl
      · simp only [Function.comp_apply]
        rw [if_neg ho, if_neg ho]
  · intro hm
    have hm' : (c.scene.mode == "OBJECT") = false := by rw [hm]; rfl
    have hm2 : (c.scene.mode == "POSE" || c.scene.mode == "EDIT_ARMATURE") = true := by
      rw [hm]; rfl
    constructor
    · simp only [ADH_RenameRegex.execute, ADH_RenameRegex.sceneExecute,
        if_pos hv, hm', Bool.false_eq_true, if_false, if_pos hm2,
        Option.map_some']
    · intro a ha
      simp only [ADH_RenameRegex.execute, ADH_RenameRegex.sceneExecute,
        if_pos hv, hm', Bool.false_eq_true, if_false, if_pos hm2,
        Option.map_some', Option.some.injEq, ha]
      exact hbones a ha
  · intro hm
    have hm' : (c.scene.mode == "OBJECT") = false := by rw [hm]; rfl
    have hm2 : (c.scene.mode == "POSE" || c.scene.mode == "EDIT_ARMATURE") = true := by
      rw [hm]; rfl
    constructor
    · simp only [ADH_RenameRegex.execute, ADH_RenameRegex.sceneExecute,
        if_pos hv, hm', Bool.false_eq_true, if_false, if_pos hm2,
        Option.map_some']
    · intro a ha
      simp only [ADH_RenameRegex.execute, ADH_RenameRegex.sceneExecute,
        if_pos hv, hm', Bool.false_eq_true, if_false, if_pos hm2,
        Option.map_some', Option.some.injEq, ha]
      exact hbones a ha


theorem renameRegex_spec_witness :
    ((ADH_RenameRegex.execute sampleEnv renameRegex_ctx).map
        (fun x => x.1.scene.objects.map (fun o => o.name))) =
      some (renameRegex_ctx.scene.objects.map (fun o =>
        if o.selected then regexSub sampleEnv renameRegex_ctx.scene o.name
        else o.name)) :=
  ((renameRegex_spec sampleEnv renameRegex_ctx rfl).1 rfl).2


theorem addSubsurf_spec_witness :
    ADH_AddSubdivisionSurfaceModifier.execute true
        (ADH_AddSubdivisionSurfaceModifier.execute true addSubsurf_ctx).1 =
      ADH_AddSubdivisionSurfaceModifier.execute true addSubsurf_ctx :=
  (addSubsurf_spec true addSubsurf_ctx rfl (by decide)).2.2

/-! ## Claim C10 -/

/-- Claim C10: when the Use Same Custom Shape operator runs with an active
pose bone, every selected pose bone (the active one included, when it is
selected) is assigned the first selected MESH object as its custom shape
whenever one exists, regardless of the active bone's own custom shape; only
when no selected object is a mesh is the active bone's custom shape
propagated to all selected pose bones.  The operator returns FINISHED. -/
theorem useSameCustomShape_spec (c : Context) (a : Obj) (b : Bone)
    (ha : activeObj c.scene = some a) (hb : activePoseBone c.scene = some b) :
    ((ADH_UseSameCustomShape.execute c).map (fun x => x.2) =
      some OpResult.FINISHED) ∧
    ((ADH_UseSameCustomShape.execute c).map (fun x =>
        (activeObj x.1.scene).map
          (fun a' => a'.bones.map (fun bo => (bo.name, bo.custom_shape))))) =
      some (some (a.bones.map (fun bo =>
        (bo.name,
          if bo.selected then
            match (selectedObjects c.scene).find? (fun o => o.otype == "MESH") with
            | some m => some m.name
            | none => b.custom_shape
          else bo.custom_shape)))) := by
  rcases hn : c.scene.active_object with _ | n0
  · rw [activeObj, hn] at ha; exact absurd ha (by simp)
  have hl' : c.scene.objects.find? (fun o => o.name == n0) = some a := by
    rw [activeObj, hn] at ha; exact ha
  have hname : (a.name == n0) = true := by simpa using List.find?_some hl'
  constructor
  · simp only [ADH_UseSameCustomShape.execute, liftScene,
      ADH_UseSameCustomShape.sceneExecute, hb, ha, Option.map_some']
  · simp only [ADH_UseSameCustomShape.execute, liftScene,
      ADH_UseSameCustomShape.sceneExecute, hb, ha, Option.map_some',
      Option.some.injEq]
    have hfind : (updateFirst (fun o => o.name == a.name)
        (fun o => { o with bones := (o.bones.map (fun bo =>
          if bo.selected then { bo with custom_shape :=
            match (selectedObjects c.scene).find? (fun o => o.otype == "MESH") with
            | some m => some m.name
            | none => b.custom_shape }
          else bo)) }) c.scene.objects).find? (fun o => o.name == n0) =
        ((c.scene.objects.find? (fun o => o.name == n0)).map
          (fun o => { o with bones := (o.bones.map (fun bo =>
            if bo.selected then { bo with custom_shape :=
              match (selectedObjects c.scene).find? (fun o => o.otype == "MESH") with
              | some m => some m.name
              | none => b.custom_shape }
            else bo)) })) := by
      rw [show (fun (o : Obj) => o.name == n0) =
          (fun (o : Obj) => o.name == a.name) by
        funext o; rw [beq_iff_eq.mp hname]]
      exact find?_updateFirst _ _ _ (fun o h => h)
    rw [activeObj, updateObjByName]
    simp only [hn, Option.bind_some, Option.some_bind, lookupObj]
    rw [hfind, hl']
    rw [Option.map_some', Option.map_some', Option.some.injEq]
    simp only
    rw [List.map_map]
    apply List.map_congr_left
    intro bo _
    by_cases hbo : bo.selected = true
    · simp only [Function.comp_apply]
      rw [if_pos hbo, if_pos hbo]
    · simp only [Function.comp_apply]
      rw [if_neg hbo, if_neg hbo]


theorem useSameCustomShape_spec_witness :
    ((ADH_UseSameCustomShape.execute useSame_ctx).map (fun x => x.2) =
      some OpResult.FINISHED) :=
  (useSameCustomShape_spec useSame_ctx useSame_arm (sampleBone "b1" true)
    (by decide) (by decide)).1

/-! ## Claim C9 -/

lemma map_updateFirst {α β : Type} (g : α → β) (p : α → Bool) (f : α → α)
    (l : List α) (h : ∀ a, g (f a) = g a) :
    (updateFirst p f l).map g = l.map g := by
  induction l with
  | nil => rfl
  | cons a t ih =>
    simp only [updateFirst]
    by_cases hp : p a = true
    · rw [if_pos hp, List.map_cons, List.map_cons, h]
    · rw [if_neg hp, List.map_cons, List.map_cons, ih]

/-- Claim C9: if an object named widget-prefix + active-bone-name already
exists in the scene when Create Custom Shape runs, then no new object and no
new mesh data block is created, the active pose bone's custom shape is set
to None (clearing whatever was assigned), and the operator returns
FINISHED. -/
theorem createCustomShape_existing_spec (props : ADH_CreateCustomShape.Props)
    (env : HostEnv) (c : Context) (rig : Obj) (bone : Bone)
    (ha : activeObj c.scene = some rig) (hb : activePoseBone c.scene = some bone)
    (hex : c.scene.objects.any
      (fun o => o.name == props.widget_pfx ++ bone.name) = true) :
    ((ADH_CreateCustomShape.execute props env c).map (fun x => x.2) =
      some OpResult.FINISHED) ∧
    ((ADH_CreateCustomShape.execute props env c).map
        (fun x => x.1.scene.objects.map (fun o => o.name))) =
      some (c.scene.objects.map (fun o => o.name)) ∧
    ((ADH_CreateCustomShape.execute props env c).map
        (fun x => x.1.scene.data_meshes)) = some c.scene.data_meshes ∧
    ((ADH_CreateCustomShape.execute props env c).map (fun x =>
        (activePoseBone x.1.scene).map (fun b => b.custom_shape))) =
      some (some none) := by
  have hcw : ADH_CreateCustomShape.create_widget props env rig.name bone.name
      c.scene = (c.scene, none) := by
    simp only [ADH_CreateCustomShape.create_widget]
    rw [if_pos hex]
  have hexec : ADH_CreateCustomShape.execute props env c =
      some ({ c with scene := updateObjByName c.scene rig.name (fun a =>
        { a with bones := (updateFirst (fun b => b.name == bone.name)
            (fun b => { b with custom_shape := none }) a.bones) }) },
        OpResult.FINISHED) := by
    simp only [ADH_CreateCustomShape.execute, liftScene,
      ADH_CreateCustomShape.sceneExecute, ha, hb]
    cases props.widget_shape <;>
      simp only [ADH_CreateCustomShape.create_sphere_widget,
        ADH_CreateCustomShape.create_ring_widget,
        ADH_CreateCustomShape.create_box_widget, hcw, Option.map_some']
  rcases hn : c.scene.active_object with _ | n0
  · rw [activeObj, hn] at ha; exact absurd ha (by simp)
  have hl' : c.scene.objects.find? (fun o => o.name == n0) = some rig := by
    rw [activeObj, hn] at ha; exact ha
  have hname : (rig.name == n0) = true := by simpa using List.find?_some hl'
  rcases hbn : c.scene.active_bone with _ | bn
  · rw [activePoseBone, hbn] at hb; exact absurd hb (by simp)
  have hfb : rig.bones.find? (fun x => x.name == bn) = some bone := by
    rw [activePoseBone, hbn, ha] at hb
    simpa using hb
  have hbname : (bone.name == bn) = true := by simpa using List.find?_some hfb
  refine ⟨by rw [hexec]; rfl, ?_, by rw [hexec]; rfl, ?_⟩
  · rw [hexec]
    rw [Option.map_some', Option.some.injEq]
    exact map_updateFirst _ _ _ _ (fun o => rfl)
  · rw [hexec]
    rw [Option.map_some', Option.some.injEq]
    have hfind : (updateFirst (fun o => o.name == rig.name)
        (fun a => { a with bones := (updateFirst (fun b => b.name == bone.name)
            (fun b => { b with custom_shape := none }) a.bones) })
        c.scene.objects).find? (fun o => o.name == n0) =
        ((c.scene.objects.find? (fun o => o.name == n0)).map
          (fun a => { a with bones := (updateFirst (fun b => b.name == bone.name)
            (fun b => { b with custom_shape := none }) a.bones) })) := by
      rw [show (fun (o : Obj) => o.name == n0) =
          (fun (o : Obj) => o.name == rig.name) by
        funext o; rw [beq_iff_eq.mp hname]]
      exact find?_updateFirst _ _ _ (fun o h => h)
    rw [activePoseBone, updateObjByName]
    simp only [hbn, hn, Option.bind_some, Option.some_bind, activeObj, lookupObj]
    rw [hfind, hl']
    simp only [Option.map_some', Option.some_bind]
    have hfind2 : (updateFirst (fun b => b.name == bone.name)
        (fun b => { b with custom_shape := none }) rig.bones).find?
          (fun x => x.name == bn) =
        ((rig.bones.find? (fun x => x.name == bn)).map
          (fun b => { b with custom_shape := none })) := by
      rw [show (fun (x : Bone) => x.name == bn) =
          (fun (x : Bone) => x.name == bone.name) by
        funext x; rw [beq_iff_eq.mp hbname]]
      exact find?_updateFirst _ _ _ (fun x h => h)
    rw [hfind2, hfb]
    rfl

/-! ## Claim C3 -/


lemma applySrc_nil (x : Bone) : applySrc [] x = x := rfl

lemma applySrc_of_find_none (srcBones : List Bone) (x : Bone)
    (h : srcBones.find? (fun sb => sb.name == x.name) = none) :
    applySrc srcBones x = x := by
  rw [applySrc, h]

lemma applySrc_of_find_some (srcBones : List Bone) (x : Bone) (sb : Bone)
    (h : srcBones.find? (fun sb => sb.name == x.name) = some sb) :
    applySrc srcBones x = { x with custom_shape := sb.custom_shape } := by
  rw [applySrc, h]

lemma updateFirst_eq_map_of_nodup {α : Type} (key : α → String) (kv : String)
    (g : α → α) (l : List α) (hnd : (l.map key).Nodup) :
    updateFirst (fun a => key a == kv) g l =
      l.map (fun a => if key a == kv then g a else a) := by
  induction l with
  | nil => rfl
  | cons a t ih =>
    rw [List.map_cons, List.nodup_cons] at hnd
    simp only [updateFirst, List.map_cons]
    by_cases hp : (key a == kv) = true
    · rw [if_pos hp, if_pos hp]
      congr 1
      symm
      refine (List.map_congr_left ?_).trans (List.map_id _)
      intro x hx
      have hx' : ¬(key x == kv) = true := by
        intro hxk
        apply hnd.1
        rw [beq_iff_eq.mp hp, ← beq_iff_eq.mp hxk]
        exact List.mem_map_of_mem key hx
      rw [if_neg hx']
      rfl
    · rw [if_neg hp, if_neg hp, ih hnd.2]

lemma foldl_scene_objects {β : Type} (step : β → List Obj → List Obj)
    (L : List β) (s : Scene) :
    L.foldl (fun acc x => { acc with objects := step x acc.objects }) s =
      { s with objects := L.foldl (fun l x => step x l) s.objects } := by
  induction L generalizing s with
  | nil => rfl
  | cons x rest ih =>
    simp only [List.foldl_cons]
    rw [ih]

namespace ADH_CopyCustomShapes

lemma setBoneShape_eq (bname : String) (cs : Option String) (o : Obj) :
    setBoneShape bname cs o =
      if o.otype == "ARMATURE" then
        { o with bones := (updateFirst (fun b => b.name == bname)
            (fun b => { b with custom_shape := cs }) o.bones) }
      else o := by
  rw [setBoneShape]
  by_cases h1 : (o.otype == "ARMATURE") = true
  · by_cases h2 : (o.bones.any fun b => b.name == bname) = true
    · rw [if_pos (show (o.otype == "ARMATURE" &&
          o.bones.any fun b => b.name == bname) = true by rw [h1, h2]; rfl),
        if_pos h1]
    · have h2' : (o.bones.any fun b => b.name == bname) = false := by
        simpa using h2
      rw [if_neg (show ¬(o.otype == "ARMATURE" &&
          o.bones.any fun b => b.name == bname) = true by rw [h2']; simp),
        if_pos h1]
      rw [updateFirst_of_forall_neg _ _ _ (fun b hb => by
        simpa using List.any_eq_false.mp h2' b hb)]
  · have h1' : (o.otype == "ARMATURE") = false := by simpa using h1
    rw [if_neg (show ¬(o.otype == "ARMATURE" &&
        o.bones.any fun b => b.name == bname) = true by rw [h1']; simp),
      if_neg h1]

lemma setBoneShape_name (bname : String) (cs : Option String) (o : Obj) :
    (setBoneShape bname cs o).name = o.name := by
  rw [setBoneShape_eq]
  split <;> rfl

lemma setBoneShape_fold (srcBones : List Bone)
    (hsrc : (srcBones.map (fun b => b.name)).Nodup)
    (o : Obj) (ho : (o.bones.map (fun b => b.name)).Nodup) :
    srcBones.foldl (fun o b => setBoneShape b.name b.custom_shape o) o =
      if o.otype == "ARMATURE" then
        { o with bones := (o.bones.map (applySrc srcBones)) }
      else o := by
  induction srcBones generalizing o with
  | nil =>
    simp only [List.foldl_nil]
    have hmap : List.map (applySrc []) o.bones = o.bones :=
      (List.map_congr_left (fun x _ => applySrc_nil x)).trans (List.map_id _)
    rw [hmap]
    split <;> rfl
  | cons sb rest ih =>
    rw [List.map_cons, List.nodup_cons] at hsrc
    simp only [List.foldl_cons]
    rw [setBoneShape_eq]
    by_cases h1 : (o.otype == "ARMATURE") = true
    · rw [if_pos h1, if_pos h1]
      have hbones' : ((updateFirst (fun b => b.name == sb.name)
          (fun b => { b with custom_shape := sb.custom_shape })
          o.bones).map (fun b => b.name)).Nodup := by
        rw [map_updateFirst (fun b : Bone => b.name)
          (fun b => b.name == sb.name)
          (fun b => { b with custom_shape := sb.custom_shape })
          o.bones (fun b => rfl)]
        exact ho
      have ihh := ih hsrc.2
        { o with bones := (updateFirst (fun b => b.name == sb.name)
            (fun b => { b with custom_shape := sb.custom_shape }) o.bones) }
        hbones'
      dsimp only [] at ihh
      rw [if_pos h1] at ihh
      rw [ihh]
      congr 1
      have hUF := updateFirst_eq_map_of_nodup (fun b : Bone => b.name) sb.name
        (fun b => { b with custom_shape := sb.custom_shape }) o.bones ho
      rw [hUF, List.map_map]
      apply List.map_congr_left
      intro x _
      simp only [Function.comp_apply]
      by_cases hx : (x.name == sb.name) = true
      · rw [if_pos hx]
        have hfr : rest.find? (fun sb' => sb'.name ==
            ({ x with custom_shape := sb.custom_shape } : Bone).name) = none := by
          apply List.find?_eq_none.mpr
          intro sb' hsb' hcontra
          apply hsrc.1
          have h1' : sb'.name = x.name := beq_iff_eq.mp hcontra
          rw [← beq_iff_eq.mp hx, ← h1']
          exact List.mem_map_of_mem _ hsb'
        rw [applySrc_of_find_none rest
            ({ x with custom_shape := sb.custom_shape }) hfr,
          applySrc_of_find_some (sb :: rest) x sb
            (List.find?_cons_of_pos _ (beq_iff_eq.mpr (beq_iff_eq.mp hx).symm))]
      · rw [if_neg hx]
        have hne : ¬(sb.name == x.name) = true := by
          intro hcontra
          exact hx (beq_iff_eq.mpr (beq_iff_eq.mp hcontra).symm)
        have hfc : (sb :: rest).find? (fun sb' => sb'.name == x.name) =
            rest.find? (fun sb' => sb'.name == x.name) :=
          List.find?_cons_of_neg _ hne
        rw [applySrc, applySrc, hfc]
    · rw [if_neg h1, if_neg h1]
      have ihh := ih hsrc.2 o ho
      rw [if_neg (show ¬(o.otype == "ARMATURE") = true from h1)] at ihh
      exact ihh

lemma foldl_updateNames_eq_map (g : Obj → Obj) (hg : ∀ o, (g o).name = o.name)
    (names : List String) (hnames : names.Nodup)
    (l : List Obj) (hnd : (l.map (fun o => o.name)).Nodup) :
    names.foldl (fun l an => updateFirst (fun o => o.name == an) g l) l =
      l.map (fun o => if o.name ∈ names then g o else o) := by
  induction names generalizing l with
  | nil =>
    simp only [List.foldl_nil]
    symm
    refine (List.map_congr_left ?_).trans (List.map_id _)
    intro x _
    rw [if_neg (List.not_mem_nil _)]
    rfl
  | cons an rest ih =>
    rw [List.nodup_cons] at hnames
    simp only [List.foldl_cons]
    rw [updateFirst_eq_map_of_nodup (fun o => o.name) an g l hnd]
    have hnd' : ((l.map (fun o => if o.name == an then g o else o)).map
        (fun o => o.name)).Nodup := by
      rw [List.map_map]
      have heq : ((fun o : Obj => o.name) ∘
          (fun o => if o.name == an then g o else o)) =
          (fun o : Obj => o.name) := by
        funext o
        simp only [Function.comp_apply]
        by_cases h : (o.name == an) = true
        · rw [if_pos h, hg]
        · rw [if_neg h]
      rw [heq]
      exact hnd
    rw [ih hnames.2 _ hnd', List.map_map]
    apply List.map_congr_left
    intro o _
    simp only [Function.comp_apply]
    by_cases h1 : (o.name == an) = true
    · rw [if_pos h1]
      rw [if_neg (show (g o).name ∉ rest by
        rw [hg, beq_iff_eq.mp h1]
        exact hnames.1)]
      rw [if_pos (by rw [beq_iff_eq.mp h1]; exact List.mem_cons_self _ _)]
    · rw [if_neg h1]
      by_cases h2 : o.name ∈ rest
      · rw [if_pos h2, if_pos (List.mem_cons_of_mem _ h2)]
      · rw [if_neg h2, if_neg (by
          intro hmem
          rcases List.mem_cons.mp hmem with h | h
          · exact h1 (beq_iff_eq.mpr h)
          · exact h2 h)]

lemma copyShapes_objects_fold (srcBones : List Bone) (dstNames : List String)
    (hdst : dstNames.Nodup) (l : List Obj)
    (hnd : (l.map (fun o => o.name)).Nodup) :
    srcBones.foldl (fun l b => dstNames.foldl (fun l an =>
        updateFirst (fun o => o.name == an)
          (setBoneShape b.name b.custom_shape) l) l) l =
      l.map (fun o => if o.name ∈ dstNames then
        srcBones.foldl (fun o b => setBoneShape b.name b.custom_shape o) o
        else o) := by
  induction srcBones generalizing l with
  | nil =>
    simp only [List.foldl_nil]
    symm
    refine (List.map_congr_left ?_).trans (List.map_id _)
    intro o _
    split <;> rfl
  | cons b rest ih =>
    simp only [List.foldl_cons]
    rw [foldl_updateNames_eq_map _ (setBoneShape_name b.name b.custom_shape)
      dstNames hdst l hnd]
    have hnd' : ((l.map (fun o => if o.name ∈ dstNames then
        setBoneShape b.name b.custom_shape o else o)).map
        (fun o => o.name)).Nodup := by
      rw [List.map_map]
      have heq : ((fun o : Obj => o.name) ∘ (fun o => if o.name ∈ dstNames then
          setBoneShape b.name b.custom_shape o else o)) =
          (fun o : Obj => o.name) := by
        funext o
        simp only [Function.comp_apply]
        by_cases h : o.name ∈ dstNames
        · rw [if_pos h, setBoneShape_name]
        · rw [if_neg h]
      rw [heq]
      exact hnd
    rw [ih _ hnd', List.map_map]
    apply List.map_congr_left
    intro o _
    simp only [Function.comp_apply]
    by_cases h1 : o.name ∈ dstNames
    · rw [if_pos h1, if_pos (by rw [setBoneShape_name]; exact h1), if_pos h1]
    · rw [if_neg h1, if_neg h1, if_neg h1]

lemma copyShapes_scene_fold (srcBones : List Bone) (dstNames : List String)
    (s : Scene) :
    srcBones.foldl (fun acc b => dstNames.foldl (fun acc an =>
        updateObjByName acc an (setBoneShape b.name b.custom_shape)) acc) s =
      { s with objects := (srcBones.foldl (fun l b =>
          dstNames.foldl (fun l an => updateFirst (fun o => o.name == an)
            (setBoneShape b.name b.custom_shape) l) l) s.objects) } := by
  have hin : ∀ (b : Bone) (s : Scene), dstNames.foldl (fun acc an =>
      updateObjByName acc an (setBoneShape b.name b.custom_shape)) s =
      { s with objects := (dstNames.foldl (fun l an =>
          updateFirst (fun o => o.name == an)
            (setBoneShape b.name b.custom_shape) l) s.objects) } := by
    intro b s
    exact foldl_scene_objects (fun an l => updateFirst (fun o => o.name == an)
      (setBoneShape b.name b.custom_shape) l) dstNames s
  simp only [hin]
  exact foldl_scene_objects (fun b l => dstNames.foldl (fun l an =>
    updateFirst (fun o => o.name == an)
      (setBoneShape b.name b.custom_shape) l) l) srcBones s

end ADH_CopyCustomShapes

/-- Claim C3: for every pose bone of the active (source) armature and every
other selected armature, if the destination has a same-named pose bone, Copy
Custom Shapes gives it the source bone's custom shape; destination bones
without a same-named source counterpart keep their custom shape, objects
that are not selected armatures distinct from the source are untouched, a
missing counterpart never aborts the run, and the operator returns
FINISHED.  (`applySrc` performs exactly the same-name lookup.) -/
theorem copyCustomShapes_spec (c : Context) (src : Obj)
    (ha : activeObj c.scene = some src) (hsel : src.selected = true)
    (hnodup : (c.scene.objects.map (fun o => o.name)).Nodup)
    (hsrcnodup : (src.bones.map (fun b => b.name)).Nodup)
    (hbnodup : ∀ o ∈ c.scene.objects, (o.bones.map (fun b => b.name)).Nodup) :
    ((ADH_CopyCustomShapes.execute c).map (fun x => x.2) =
      some OpResult.FINISHED) ∧
    ((ADH_CopyCustomShapes.execute c).map (fun x => x.1.scene.objects)) =
      some (c.scene.objects.map (fun o =>
        if o.selected && (o.name != src.name) && (o.otype == "ARMATURE") then
          { o with bones := (o.bones.map (applySrc src.bones)) }
        else o)) := by
  have hdstnodup : (((selectedObjects c.scene).filter
      (fun o => o.name != src.name)).map (fun o => o.name)).Nodup := by
    apply List.Nodup.sublist _ hnodup
    exact List.Sublist.map _
      ((List.filter_sublist _).trans (List.filter_sublist _))
  have hdir1 : ∀ o ∈ c.scene.objects,
      o.name ∈ ((selectedObjects c.scene).filter
        (fun o => o.name != src.name)).map (fun o => o.name) →
      o.selected = true ∧ (o.name != src.name) = true := by
    intro o ho hmem
    rcases List.mem_map.mp hmem with ⟨o', hmem', heq⟩
    rcases List.mem_filter.mp hmem' with ⟨hmem'', hne'⟩
    rcases List.mem_filter.mp hmem'' with ⟨ho', hsel'⟩
    have : o' = o := List.inj_on_of_nodup_map hnodup ho' ho heq
    subst this
    exact ⟨hsel', hne'⟩
  have hdir2 : ∀ o ∈ c.scene.objects, o.selected = true →
      (o.name != src.name) = true →
      o.name ∈ ((selectedObjects c.scene).filter
        (fun o => o.name != src.name)).map (fun o => o.name) := by
    intro o ho hs hne
    exact List.mem_map_of_mem _
      (List.mem_filter.mpr ⟨List.mem_filter.mpr ⟨ho, hs⟩, hne⟩)
  constructor
  · simp only [ADH_CopyCustomShapes.execute, liftScene,
      ADH_CopyCustomShapes.sceneExecute, ha, hsel, if_true, Option.map_some']
  · simp only [ADH_CopyCustomShapes.execute, liftScene,
      ADH_CopyCustomShapes.sceneExecute, ha, hsel, if_true, Option.map_some',
      Option.some.injEq]
    rw [ADH_CopyCustomShapes.copyShapes_scene_fold]
    dsimp only []
    rw [ADH_CopyCustomShapes.copyShapes_objects_fold src.bones _ hdstnodup
      c.scene.objects hnodup]
    apply List.map_congr_left
    intro o ho
    rw [ADH_CopyCustomShapes.setBoneShape_fold src.bones hsrcnodup o
      (hbnodup o ho)]
    by_cases hmem : o.name ∈ ((selectedObjects c.scene).filter
        (fun o => o.name != src.name)).map (fun o => o.name)
    · rw [if_pos hmem]
      rcases hdir1 o ho hmem with ⟨hs, hne⟩
      by_cases harm : (o.otype == "ARMATURE") = true
      · rw [if_pos harm,
          if_pos (show (o.selected && (o.name != src.name) &&
            (o.otype == "ARMATURE")) = true by rw [hs, hne, harm]; rfl)]
      · rw [if_neg harm,
          if_neg (show ¬(o.selected && (o.name != src.name) &&
            (o.otype == "ARMATURE")) = true by
            intro hg
            simp only [Bool.and_eq_true] at hg
            exact harm hg.2)]
    · rw [if_neg hmem,
        if_neg (show ¬(o.selected && (o.name != src.name) &&
          (o.otype == "ARMATURE")) = true by
          intro hg
          simp only [Bool.and_eq_true] at hg
          exact hmem (hdir2 o ho hg.1.1 hg.1.2))]


theorem copyCustomShapes_spec_witness :
    ((ADH_CopyCustomShapes.execute copyShapes_ctx).map (fun x => x.2) =
      some OpResult.FINISHED) :=
  (copyCustomShapes_spec copyShapes_ctx copyShapes_src (by decide) (by decide)
    (by decide) (by decide) (by decide)).1

/-! ## Claim C5 -/

lemma hook_name_inj {a b : String} (h : "hook-" ++ a = "hook-" ++ b) : a = b := by
  have h2 := congrArg String.data h
  rw [String.data_append, String.data_append] at h2
  exact String.ext (List.append_cancel_left h2)

lemma foldl_append_map {α β : Type} (f : β → α) (L : List β) (l : List α) :
    L.foldl (fun acc x => acc ++ [f x]) l = l ++ L.map f := by
  induction L generalizing l with
  | nil => simp
  | cons x rest ih =>
    simp only [List.foldl_cons, List.map_cons, ih, List.append_assoc,
      List.singleton_append]

lemma updateFirst_updateFirst {α : Type} (p : α → Bool) (f g : α → α)
    (l : List α) (hf : ∀ a, p (f a) = p a) :
    updateFirst p g (updateFirst p f l) = updateFirst p (fun a => g (f a)) l := by
  induction l with
  | nil => rfl
  | cons a t ih =>
    simp only [updateFirst]
    by_cases h : p a = true
    · rw [if_pos h]
      simp only [updateFirst]
      rw [if_pos (by rw [hf]; exact h), if_pos h]
    · rw [if_neg h]
      simp only [updateFirst]
      rw [if_neg h, ih, if_neg h]

lemma activeObj_mode (s : Scene) (m : String) :
    activeObj { s with mode := m } = activeObj s := rfl

lemma activeObj_updateObjByName (s : Scene) (A : Obj) (f : Obj → Obj)
    (hf : ∀ o, (f o).name = o.name)
    (ha : activeObj s = some A) :
    activeObj (updateObjByName s A.name f) = some (f A) := by
  rcases hn : s.active_object with _ | n0
  · rw [activeObj, hn] at ha; exact absurd ha (by simp)
  · have hl' : s.objects.find? (fun o => o.name == n0) = some A := by
      rw [activeObj, hn] at ha; exact ha
    have hname : (A.name == n0) = true := by simpa using List.find?_some hl'
    have hpred : (fun (o : Obj) => o.name == n0) =
        (fun (o : Obj) => o.name == A.name) := by
      funext o; rw [beq_iff_eq.mp hname]
    have hl'' : s.objects.find? (fun o => o.name == A.name) = some A := by
      rw [← hpred]; exact hl'
    rw [activeObj, updateObjByName]
    simp only [hn, Option.some_bind, Option.bind_some, lookupObj]
    rw [hpred, find?_updateFirst _ _ _ (fun o h => by rw [← hf o] at h; exact h),
      hl'']
    rfl

lemma updateFirst_eq_self {α : Type} (p : α → Bool) (f : α → α) (l : List α)
    (A : α) (hfind : l.find? p = some A) (hfA : f A = A) :
    updateFirst p f l = l := by
  induction l with
  | nil => rfl
  | cons a t ih =>
    by_cases h : p a = true
    · rw [List.find?_cons_of_pos _ h, Option.some.injEq] at hfind
      simp only [updateFirst]
      rw [if_pos h, hfind, hfA]
    · rw [List.find?_cons_of_neg _ h] at hfind
      simp only [updateFirst]
      rw [if_neg h, ih hfind]

lemma updateFirst_append_of_neg {α : Type} (p : α → Bool) (f : α → α)
    (l1 l2 : List α) (h : ∀ x ∈ l1, p x = false) :
    updateFirst p f (l1 ++ l2) = l1 ++ updateFirst p f l2 := by
  induction l1 with
  | nil => rfl
  | cons a t ih =>
    simp only [List.cons_append, updateFirst]
    rw [if_neg (by rw [h a (List.mem_cons_self a t)]; exact Bool.false_ne_true)]
    congr 1
    exact ih (fun x hx => h x (List.mem_cons_of_mem _ hx))

namespace ADH_CreateHookBones


lemma addHook_fold (hl : List Bool) (todo : List Bone) (s : Scene) (n0 : String)
    (A : Obj) (pre : List Bone)
    (hact : s.active_object = some n0)
    (hlook : s.objects.find? (fun o => o.name == n0) = some A)
    (hbones : A.bones = pre ++ todo.map (hookBoneOf hl))
    (hpre : ∀ b ∈ todo, ∀ x ∈ pre, x.name ≠ "hook-" ++ b.name)
    (htodo : (todo.map (fun b => b.name)).Nodup) :
    todo.foldlM addHookConstraint s =
      some { s with objects := (updateFirst (fun o => o.name == n0)
        (fun o => { o with bones := pre ++ todo.map (hookDone hl n0) })
        s.objects) } := by
  induction todo generalizing s A pre with
  | nil =>
    rw [List.foldlM_nil, List.map_nil, List.append_nil]
    have hbA : A.bones = pre := by simpa using hbones
    rw [updateFirst_eq_self _ _ _ A hlook (by rw [← hbA])]
    rfl
  | cons b rest ih =>
    rw [List.foldlM_cons]
    have hA : activeObj s = some A := by rw [activeObj, hact]; exact hlook
    have hnameA : (A.name == n0) = true := by simpa using List.find?_some hlook
    have hnA : A.name = n0 := beq_iff_eq.mp hnameA
    have hany : (A.bones.any (fun hb => hb.name == "hook-" ++ b.name)) = true := by
      rw [hbones]
      apply List.any_eq_true.mpr
      refine ⟨hookBoneOf hl b, List.mem_append_right _ ?_, beq_self_eq_true _⟩
      rw [List.map_cons]
      exact List.mem_cons_self _ _
    have hstep : addHookConstraint s b = some (updateObjByName s n0
        (fun a => { a with bones := (updateFirst
          (fun hb => hb.name == "hook-" ++ b.name)
          (fun hb => { hb with constraints :=
            hb.constraints ++ [ctConstraint n0 b.name] }) a.bones) })) := by
      simp only [addHookConstraint, hA]
      rw [if_pos hany, hnA]
    rw [hstep]
    show List.foldlM addHookConstraint (updateObjByName s n0
        (fun a => { a with bones := (updateFirst
          (fun hb => hb.name == "hook-" ++ b.name)
          (fun hb => { hb with constraints :=
            hb.constraints ++ [ctConstraint n0 b.name] }) a.bones) })) rest = _
    rw [List.map_cons, List.nodup_cons] at htodo
    have hpred : (fun (o : Obj) => o.name == n0) =
        (fun (o : Obj) => o.name == A.name) := by
      funext o; rw [hnA]
    have hlook' : (updateFirst (fun o => o.name == n0)
        (fun a => { a with bones := (updateFirst
          (fun hb => hb.name == "hook-" ++ b.name)
          (fun hb => { hb with constraints :=
            hb.constraints ++ [ctConstraint n0 b.name] }) a.bones) })
        s.objects).find? (fun o => o.name == n0) =
        some { A with bones := (updateFirst
          (fun hb => hb.name == "hook-" ++ b.name)
          (fun hb => { hb with constraints :=
            hb.constraints ++ [ctConstraint n0 b.name] }) A.bones) } := by
      rw [find?_updateFirst (fun o => o.name == n0)
        (fun a => { a with bones := (updateFirst
          (fun hb => hb.name == "hook-" ++ b.name)
          (fun hb => { hb with constraints :=
            hb.constraints ++ [ctConstraint n0 b.name] }) a.bones) })
        s.objects (fun o h => h), hlook]
      rfl
    have hupd : (updateFirst (fun hb => hb.name == "hook-" ++ b.name)
        (fun hb => { hb with constraints :=
          hb.constraints ++ [ctConstraint n0 b.name] }) A.bones) =
        (pre ++ [hookDone hl n0 b]) ++ rest.map (hookBoneOf hl) := by
      rw [hbones, List.map_cons,
        updateFirst_append_of_neg _ _ pre _ (fun x hx => by
          have := hpre b (List.mem_cons_self _ _) x hx
          simp only [beq_eq_false_iff_ne, ne_eq]
          exact this)]
      simp only [updateFirst]
      rw [if_pos (show ((hookBoneOf hl b).name == "hook-" ++ b.name) = true from
        beq_self_eq_true _)]
      rw [List.append_assoc, List.singleton_append]
      rfl
    have ihh := ih (updateObjByName s n0
        (fun a => { a with bones := (updateFirst
          (fun hb => hb.name == "hook-" ++ b.name)
          (fun hb => { hb with constraints :=
            hb.constraints ++ [ctConstraint n0 b.name] }) a.bones) }))
      { A with bones := (updateFirst
          (fun hb => hb.name == "hook-" ++ b.name)
          (fun hb => { hb with constraints :=
            hb.constraints ++ [ctConstraint n0 b.name] }) A.bones) }
      (pre ++ [hookDone hl n0 b]) hact hlook' (by rw [hupd])
      (fun b' hb' x hx => by
        rcases List.mem_append.mp hx with hx | hx
        · exact hpre b' (List.mem_cons_of_mem _ hb') x hx
        · rw [List.mem_singleton.mp hx]
          intro hcontra
          have : b.name = b'.name := hook_name_inj hcontra
          exact htodo.1 (this ▸ List.mem_map_of_mem _ hb'))
      htodo.2
    rw [ihh]
    simp only [updateObjByName]
    rw [updateFirst_updateFirst (fun o => o.name == n0)
      (fun a => { a with bones := (updateFirst
        (fun hb => hb.name == "hook-" ++ b.name)
        (fun hb => { hb with constraints :=
          hb.constraints ++ [ctConstraint n0 b.name] }) a.bones) })
      (fun o => { o with bones := ((pre ++ [hookDone hl n0 b]) ++
        List.map (hookDone hl n0) rest) })
      s.objects (fun o => rfl)]
    have hlist : (pre ++ [hookDone hl n0 b]) ++ rest.map (hookDone hl n0) =
        pre ++ (b :: rest).map (hookDone hl n0) := by
      rw [List.map_cons, List.append_assoc, List.singleton_append]
    simp only [hlist]

end ADH_CreateHookBones

/-- Claim C5: for every selected bone, Create Hook Bones creates a new edit
bone named "hook-" + the bone's name with equal head, tail and roll, halved
bbone_x and bbone_z, layers from the Hook Layers property, and a single
COPY_TRANSFORMS constraint in LOCAL owner and target space targeting the
original bone of the active armature; the interaction mode in effect before
invocation is restored, and the operator returns FINISHED. -/
theorem createHookBones_spec (hl : List Bool) (c : Context) (arm : Obj)
    (ha : activeObj c.scene = some arm) (harm : arm.otype = "ARMATURE")
    (hmode : c.scene.mode ≠ "EDIT")
    (hnodup : (arm.bones.map (fun b => b.name)).Nodup)
    (hnocol : ∀ b ∈ arm.bones, b.selected = true →
      ∀ b2 ∈ arm.bones, b2.name ≠ "hook-" ++ b.name) :
    ((ADH_CreateHookBones.execute hl c).map (fun x => x.2) =
      some OpResult.FINISHED) ∧
    ((ADH_CreateHookBones.execute hl c).map (fun x => x.1.scene.mode)) =
      some c.scene.mode ∧
    ((ADH_CreateHookBones.execute hl c).map (fun x =>
        (activeObj x.1.scene).map (fun a => a.bones))) =
      some (some (arm.bones ++
        (arm.bones.filter (fun b => b.selected)).map (fun b =>
          { name := "hook-" ++ b.name, head := b.head, tail := b.tail,
            roll := b.roll, bbone_x := b.bbone_x / 2, bbone_z := b.bbone_z / 2,
            layers := hl, selected := false, custom_shape := none,
            constraints := [
              { ctype := "COPY_TRANSFORMS", owner_space := "LOCAL",
                target_space := "LOCAL", target := some arm.name,
                subtarget := b.name }] }))) := by
  rcases hn : c.scene.active_object with _ | n0
  · rw [activeObj, hn] at ha; exact absurd ha (by simp)
  have hl0 : c.scene.objects.find? (fun o => o.name == n0) = some arm := by
    rw [activeObj, hn] at ha; exact ha
  have hname : (arm.name == n0) = true := by simpa using List.find?_some hl0
  have hnA : arm.name = n0 := beq_iff_eq.mp hname
  have ha1 : activeObj (modeSet "EDIT" c.scene) = some arm := ha
  have harm2 : activeObj (updateObjByName (modeSet "EDIT" c.scene) arm.name
      (fun a => { a with bones := (a.bones ++
        (arm.bones.filter (fun b => b.selected)).map
          (ADH_CreateHookBones.hookBoneOf hl)) })) =
      some { arm with bones := (arm.bones ++
        (arm.bones.filter (fun b => b.selected)).map
          (ADH_CreateHookBones.hookBoneOf hl)) } :=
    activeObj_updateObjByName _ arm _ (fun o => rfl) ha1
  have harm3 : activeObj (modeSet "POSE" (updateObjByName
      (modeSet "EDIT" c.scene) arm.name
      (fun a => { a with bones := (a.bones ++
        (arm.bones.filter (fun b => b.selected)).map
          (ADH_CreateHookBones.hookBoneOf hl)) }))) =
      some { arm with bones := (arm.bones ++
        (arm.bones.filter (fun b => b.selected)).map
          (ADH_CreateHookBones.hookBoneOf hl)) } := harm2
  have hsel3 : selectedBones (modeSet "POSE" (updateObjByName
      (modeSet "EDIT" c.scene) arm.name
      (fun a => { a with bones := (a.bones ++
        (arm.bones.filter (fun b => b.selected)).map
          (ADH_CreateHookBones.hookBoneOf hl)) }))) =
      arm.bones.filter (fun b => b.selected) := by
    rw [selectedBones, harm3]
    simp only [Option.map_some', Option.getD_some]
    rw [List.filter_append]
    rw [show (((arm.bones.filter (fun b => b.selected)).map
        (ADH_CreateHookBones.hookBoneOf hl)).filter (fun b => b.selected)) =
        [] from List.filter_eq_nil_iff.mpr (fun b hb => by
      rcases List.mem_map.mp hb with ⟨b0, _, rfl⟩
      simp [ADH_CreateHookBones.hookBoneOf])]
    rw [List.append_nil]
  have hlook3 : (modeSet "POSE" (updateObjByName
      (modeSet "EDIT" c.scene) arm.name
      (fun a => { a with bones := (a.bones ++
        (arm.bones.filter (fun b => b.selected)).map
          (ADH_CreateHookBones.hookBoneOf hl)) }))).objects.find?
      (fun o => o.name == n0) =
      some { arm with bones := (arm.bones ++
        (arm.bones.filter (fun b => b.selected)).map
          (ADH_CreateHookBones.hookBoneOf hl)) } := by
    have h3 := harm3
    rw [activeObj] at h3
    rw [show (modeSet "POSE" (updateObjByName (modeSet "EDIT" c.scene) arm.name
      (fun a => { a with bones := (a.bones ++
        (arm.bones.filter (fun b => b.selected)).map
          (ADH_CreateHookBones.hookBoneOf hl)) }))).active_object =
      some n0 from hn] at h3
    simpa [lookupObj] using h3
  have hfold := ADH_CreateHookBones.addHook_fold hl
    (arm.bones.filter (fun b => b.selected))
    (modeSet "POSE" (updateObjByName (modeSet "EDIT" c.scene) arm.name
      (fun a => { a with bones := (a.bones ++
        (arm.bones.filter (fun b => b.selected)).map
          (ADH_CreateHookBones.hookBoneOf hl)) })))
    n0
    { arm with bones := (arm.bones ++
        (arm.bones.filter (fun b => b.selected)).map
          (ADH_CreateHookBones.hookBoneOf hl)) }
    arm.bones hn hlook3 rfl
    (fun b hb x hx => by
      rcases List.mem_filter.mp hb with ⟨hbmem, hbsel⟩
      exact hnocol b hbmem hbsel x hx)
    (List.Nodup.sublist
      (List.Sublist.map _ (List.filter_sublist arm.bones)) hnodup)
  have hexec : ADH_CreateHookBones.execute hl c = some
      ({ c with scene := (modeSet
          (if c.scene.mode == "EDIT_ARMATURE" then "EDIT" else c.scene.mode)
          { (modeSet "POSE" (updateObjByName (modeSet "EDIT" c.scene) arm.name
              (fun a => { a with bones := (a.bones ++
                (arm.bones.filter (fun b => b.selected)).map
                  (ADH_CreateHookBones.hookBoneOf hl)) }))) with
            objects := (updateFirst (fun o => o.name == n0)
              (fun o => { o with bones := (arm.bones ++
                (arm.bones.filter (fun b => b.selected)).map
                  (ADH_CreateHookBones.hookDone hl n0)) })
              (modeSet "POSE" (updateObjByName (modeSet "EDIT" c.scene)
                arm.name
                (fun a => { a with bones := (a.bones ++
                  (arm.bones.filter (fun b => b.selected)).map
                    (ADH_CreateHookBones.hookBoneOf hl)) }))).objects) }) },
        OpResult.FINISHED) := by
    simp only [ADH_CreateHookBones.execute, liftScene,
      ADH_CreateHookBones.sceneExecute, ha1, foldl_append_map, hsel3, hfold,
      Option.map_some']
  have hao4 : activeObj { (modeSet "POSE" (updateObjByName (modeSet "EDIT" c.scene)
      arm.name
      (fun a => { a with bones := (a.bones ++
        (arm.bones.filter (fun b => b.selected)).map
          (ADH_CreateHookBones.hookBoneOf hl)) }))) with
      objects := (updateFirst (fun o => o.name == n0)
        (fun o => { o with bones := (arm.bones ++
          (arm.bones.filter (fun b => b.selected)).map
            (ADH_CreateHookBones.hookDone hl n0)) })
        (modeSet "POSE" (updateObjByName (modeSet "EDIT" c.scene) arm.name
          (fun a => { a with bones := (a.bones ++
            (arm.bones.filter (fun b => b.selected)).map
              (ADH_CreateHookBones.hookBoneOf hl)) }))).objects) } =
      some { arm with bones := (arm.bones ++
        (arm.bones.filter (fun b => b.selected)).map
          (ADH_CreateHookBones.hookDone hl n0)) } := by
    rw [activeObj]
    rw [show ({ (modeSet "POSE" (updateObjByName (modeSet "EDIT" c.scene)
        arm.name
        (fun a => { a with bones := (a.bones ++
          (arm.bones.filter (fun b => b.selected)).map
            (ADH_CreateHookBones.hookBoneOf hl)) }))) with
        objects := (updateFirst (fun o => o.name == n0)
          (fun o => { o with bones := (arm.bones ++
            (arm.bones.filter (fun b => b.selected)).map
              (ADH_CreateHookBones.hookDone hl n0)) })
          (modeSet "POSE" (updateObjByName (modeSet "EDIT" c.scene) arm.name
            (fun a => { a with bones := (a.bones ++
              (arm.bones.filter (fun b => b.selected)).map
                (ADH_CreateHookBones.hookBoneOf hl)) }))).objects) } : Scene).active_object =
      some n0 from hn]
    simp only [Option.some_bind, lookupObj]
    rw [find?_updateFirst (fun o : Obj => o.name == n0)
      (fun o : Obj => { o with bones := (arm.bones ++
        (arm.bones.filter (fun b => b.selected)).map
          (ADH_CreateHookBones.hookDone hl n0)) })
      _ (fun o h => h), hlook3]
    rfl
  have hrestore : ∀ (s : Scene) (A : Obj), activeObj s = some A →
      A.otype = "ARMATURE" →
      (modeSet (if c.scene.mode == "EDIT_ARMATURE" then "EDIT"
        else c.scene.mode) s).mode = c.scene.mode := by
    intro s A hA hty
    by_cases hE : (c.scene.mode == "EDIT_ARMATURE") = true
    · rw [if_pos hE]
      show (if (("EDIT" : String) == "EDIT") = true then
        match activeObj s with
        | some o => if (o.otype == "ARMATURE") = true then "EDIT_ARMATURE"
            else if (o.otype == "MESH") = true then "EDIT_MESH" else "EDIT"
        | none => "EDIT"
        else "EDIT") = c.scene.mode
      rw [if_pos (show (("EDIT" : String) == "EDIT") = true from rfl), hA]
      show (if (A.otype == "ARMATURE") = true then "EDIT_ARMATURE"
        else if (A.otype == "MESH") = true then "EDIT_MESH" else "EDIT") =
        c.scene.mode
      rw [if_pos (beq_iff_eq.mpr hty)]
      exact (beq_iff_eq.mp hE).symm
    · rw [if_neg hE]
      show (if (c.scene.mode == "EDIT") = true then
        match activeObj s with
        | some o => if (o.otype == "ARMATURE") = true then "EDIT_ARMATURE"
            else if (o.otype == "MESH") = true then "EDIT_MESH"
            else c.scene.mode
        | none => c.scene.mode
        else c.scene.mode) = c.scene.mode
      rw [if_neg (show ¬((c.scene.mode == "EDIT") = true) from
        fun h => hmode (beq_iff_eq.mp h))]
  refine ⟨by rw [hexec]; rfl, ?_, ?_⟩
  · rw [hexec, Option.map_some', Option.some.injEq]
    exact hrestore _ _ hao4 harm
  · rw [hexec, Option.map_some', Option.some.injEq]
    rw [show ∀ m s, activeObj (modeSet m s) = activeObj s from fun m s => rfl]
    rw [hao4, Option.map_some', Option.some.injEq]
    rw [← hnA]
    rfl


theorem createHookBones_spec_witness :
    ((ADH_CreateHookBones.execute [true] hookBones_ctx).map
        (fun x => x.1.scene.mode)) = some hookBones_ctx.scene.mode :=
  (createHookBones_spec [true] hookBones_ctx hookBones_arm (by decide) rfl
    (by decide) (by decide) (by decide)).2.1

/-! ## Claim C7 -/


lemma liftSceneT_module (f : Scene → Scene × OpResult) (c : Context) :
    (liftSceneT f c).1.module = c.module := rfl

lemma liftSceneT_ui (f : Scene → Scene × OpResult) (c : Context) :
    (liftSceneT f c).1.ui = c.ui := rfl

lemma liftScene_module (f : Scene → Option (Scene × OpResult)) (c : Context) :
    (afterCtx (liftScene f c) c).module = c.module := by
  rw [liftScene, afterCtx]
  cases f c.scene <;> rfl

lemma liftScene_ui (f : Scene → Option (Scene × OpResult)) (c : Context) :
    (afterCtx (liftScene f c) c).ui = c.ui := by
  rw [liftScene, afterCtx]
  cases f c.scene <;> rfl

lemma rename_module (env : HostEnv) (c : Context) :
    (afterCtx (ADH_RenameRegex.execute env c) c).module = c.module := by
  rw [ADH_RenameRegex.execute]
  cases h : ADH_RenameRegex.sceneExecute env c.scene <;> rfl

lemma rename_ui (env : HostEnv) (c : Context) :
    (afterCtx (ADH_RenameRegex.execute env c) c).ui.redraw_tagged =
      (c.ui.redraw_tagged || (env.re_valid c.scene.adh_regex_search_pattern &&
        (c.scene.mode == "POSE"))) := by
  by_cases hv : env.re_valid c.scene.adh_regex_search_pattern = true
  · have hsome : ∃ x, ADH_RenameRegex.sceneExecute env c.scene = some x := by
      rw [ADH_RenameRegex.sceneExecute, if_pos hv]
      split
      · exact ⟨_, rfl⟩
      · split
        · exact ⟨_, rfl⟩
        · exact ⟨_, rfl⟩
    rcases hsome with ⟨x, hx⟩
    rw [ADH_RenameRegex.execute, hx]
    show (if (c.scene.mode == "POSE") = true then
        { c.ui with redraw_tagged := true } else c.ui).redraw_tagged =
      (c.ui.redraw_tagged || (env.re_valid c.scene.adh_regex_search_pattern &&
        (c.scene.mode == "POSE")))
    rw [hv, Bool.true_and]
    by_cases hp : (c.scene.mode == "POSE") = true
    · rw [if_pos hp, hp, Bool.or_true]
    · rw [if_neg hp, (show (c.scene.mode == "POSE") = false by simpa using hp),
        Bool.or_false]
  · have hnone : ADH_RenameRegex.sceneExecute env c.scene = none := by
      rw [ADH_RenameRegex.sceneExecute,
        if_neg (by simpa using hv : ¬env.re_valid c.scene.adh_regex_search_pattern = true)]
    rw [ADH_RenameRegex.execute, hnone]
    show c.ui.redraw_tagged = _
    rw [(show env.re_valid c.scene.adh_regex_search_pattern = false by
      simpa using hv), Bool.false_and, Bool.or_false]

/-- Claim C7 (amended): every operator's execute mutates only the scene
graph reachable from the context, with one exception.  The add-on's
module-level data (bl_info, the operators' property definitions) is
identical before and after any run of any of the eleven operators, and the
UI state outside the scene is untouched by ten of them; the exception is
Rename Regex, which tags the current UI area for redraw exactly when it
runs in POSE mode with a compilable pattern. -/
theorem operators_frame_spec (env : HostEnv) (p w : Bool) (hl : List Bool)
    (props : ADH_CreateCustomShape.Props) (c : Context) :
    ((ADH_AddSubdivisionSurfaceModifier.execute p c).1.module = c.module ∧
     (afterCtx (ADH_ApplyLattices.execute env c) c).module = c.module ∧
     (afterCtx (ADH_CopyCustomShapes.execute c) c).module = c.module ∧
     (afterCtx (ADH_CreateCustomShape.execute props env c) c).module = c.module ∧
     (afterCtx (ADH_CreateHookBones.execute hl c) c).module = c.module ∧
     (ADH_DisplayWireForSkinnedObjects.execute w c).1.module = c.module ∧
     (ADH_RemoveVertexGroupsUnselectedBones.execute c).1.module = c.module ∧
     (afterCtx (ADH_RenameRegex.execute env c) c).module = c.module ∧
     (ADH_SyncObjectDataNameToObject.execute c).1.module = c.module ∧
     (ADH_SyncCustomShapePositionToBone.execute env c).1.module = c.module ∧
     (afterCtx (ADH_UseSameCustomShape.execute c) c).module = c.module) ∧
    ((ADH_AddSubdivisionSurfaceModifier.execute p c).1.ui = c.ui ∧
     (afterCtx (ADH_ApplyLattices.execute env c) c).ui = c.ui ∧
     (afterCtx (ADH_CopyCustomShapes.execute c) c).ui = c.ui ∧
     (afterCtx (ADH_CreateCustomShape.execute props env c) c).ui = c.ui ∧
     (afterCtx (ADH_CreateHookBones.execute hl c) c).ui = c.ui ∧
     (ADH_DisplayWireForSkinnedObjects.execute w c).1.ui = c.ui ∧
     (ADH_RemoveVertexGroupsUnselectedBones.execute c).1.ui = c.ui ∧
     (ADH_SyncObjectDataNameToObject.execute c).1.ui = c.ui ∧
     (ADH_SyncCustomShapePositionToBone.execute env c).1.ui = c.ui ∧
     (afterCtx (ADH_UseSameCustomShape.execute c) c).ui = c.ui) ∧
    (afterCtx (ADH_RenameRegex.execute env c) c).ui.redraw_tagged =
      (c.ui.redraw_tagged || (env.re_valid c.scene.adh_regex_search_pattern &&
        (c.scene.mode == "POSE"))) := by
  refine ⟨⟨rfl, liftScene_module _ c, liftScene_module _ c, liftScene_module _ c,
    liftScene_module _ c, rfl, rfl, rename_module env c, rfl, rfl,
    liftScene_module _ c⟩,
    ⟨rfl, liftScene_ui _ c, liftScene_ui _ c, liftScene_ui _ c,
    liftScene_ui _ c, rfl, rfl, rfl, rfl, liftScene_ui _ c⟩,
    rename_ui env c⟩


/-- Claim C7 (counterexample to the claim as stated): running Rename Regex
in POSE mode mutates state outside the scene graph — it tags the current UI
area for redraw (source line 388), so the state outside the scene is not
identical before and after every operator run. -/
theorem frame_redraw_cex :
    (afterCtx (ADH_RenameRegex.execute sampleEnv frame_ctx) frame_ctx).ui ≠
      frame_ctx.ui := by
  decide


theorem createCustomShape_existing_spec_witness :
    ((ADH_CreateCustomShape.execute ccs_props sampleEnv ccs_ctx).map (fun x =>
        (activePoseBone x.1.scene).map (fun b => b.custom_shape))) =
      some (some none) :=
  (createCustomShape_existing_spec ccs_props sampleEnv ccs_ctx ccs_arm
    (sampleBone "b1" true) (by decide) (by decide) (by decide)).2.2.2
